import Mathlib

set_option maxHeartbeats 2000000
set_option maxRecDepth 100000

/-!
# Verification of the neutronics-workshop specification against its notebooks

The repository is a collection of Jupyter notebooks that drive the OpenMC
Monte Carlo transport engine and companion packages (paramak, openmc.deplete,
skopt/adaptive).  The specification makes claims about the *shape* of the
notebook code (it only assembles configuration objects, assigns literals,
contains no error handling, follows the OpenMC construct/run/read sequence)
and about a handful of post-processing computations (the DPA formula, the
TBR sign conventions, the JSON result writer).

This file settles those claims with two embeddings:

* a deep embedding of every notebook's code cells as a small Python-like
  AST (`Expr`/`Stmt`), transcribed statement by statement from the
  sources, over which the structural claims become executable checks;
* shallow embeddings over `ℚ`, a string-keyed file-system model, and
  typed models of the paramak / openmc.deplete object graphs for the
  claims about particular computations and effects.

All recursive functions over the AST take an explicit fuel argument so
that every check evaluates by kernel reduction; `astFuel` far exceeds the
depth of any transcribed statement.
-/

/-- Binary operators appearing in the notebooks' expressions.  `band` is
Python's `&`, used only for CSG region intersections. -/
inductive BOp where
  | add
  | sub
  | mul
  | div
  | pow
  | band

/-- `true` for the numeric operators `+ - * / **`, `false` for the CSG
intersection `&`. -/
def BOp.isArith : BOp → Bool
  | .add | .sub | .mul | .div | .pow => true
  | .band => false

/-- Python expressions, as they occur in the notebook code cells.  Numeric
literals keep their source text (`num "14e6"`); negative literals such as
`-200` are kept as literals, while the unary minus operator applied to a
non-literal is `neg`.  Identifiers, including dotted module constants such
as `math.pi`, are `name`.  Function and constructor calls carry the dotted
callee name, positional arguments and keyword arguments; method calls carry
the receiver expression. -/
inductive Expr where
  | num (lit : String)
  | str (s : String)
  | boolLit (b : Bool)
  | name (x : String)
  | tup (es : List Expr)
  | dictE (kvs : List (String × Expr))
  | attr (e : Expr) (fld : String)
  | item (e : Expr) (ix : Expr)
  | sliceTo (e : Expr) (hi : Expr)
  | call (fn : String) (args : List Expr) (kwargs : List (String × Expr))
  | methodCall (recv : Expr) (m : String) (args : List Expr) (kwargs : List (String × Expr))
  | neg (e : Expr)
  | pos (e : Expr)
  | bop (op : BOp) (a b : Expr)
  | cmpE (op : String) (a b : Expr)
  | lam (params : List String) (body : Expr)
  | listComp (body : Expr) (v : String) (iter : Expr)

/-- Python statements of the notebook cells.  `imp` records imports,
`shell` records `!`-escaped shell commands, `withS` is a `with … as …:`
block, `defS` a function definition, `ret` a `return`.  The conditional,
`while` and `try` constructors are part of the language so that their
absence from the transcriptions is a meaningful, checkable fact. -/
inductive Stmt where
  | imp (mod : String)
  | assign (x : String) (e : Expr)
  | assignTup (xs : List String) (e : Expr)
  | setAttr (obj : Expr) (fld : String) (e : Expr)
  | setItem (obj : Expr) (ix : Expr) (e : Expr)
  | exprS (e : Expr)
  | shell (cmd : String)
  | forS (x : String) (iter : Expr) (body : List Stmt)
  | whileS (cond : Expr) (body : List Stmt)
  | ifS (cond : Expr) (thn els : List Stmt)
  | tryS (body handlers : List Stmt)
  | defS (f : String) (params : List String) (body : List Stmt)
  | withS (ctx : Expr) (asName : String) (body : List Stmt)
  | ret (e : Expr)

/-- A notebook: its identification (file path, or title for the notebooks
whose file name is not part of the sources) and the concatenated statements
of its code cells, in order. -/
structure Notebook where
  name : String
  stmts : List Stmt

/-- Fuel bound for AST recursion; no transcribed statement comes anywhere
near this nesting depth. -/
def astFuel : Nat := 100

/-- Does the expression mention the identifier `x`? -/
def mentionsName (x : String) : Nat → Expr → Bool
  | 0, _ => false
  | _ + 1, .num _ => false
  | _ + 1, .str _ => false
  | _ + 1, .boolLit _ => false
  | _ + 1, .name y => x == y
  | n + 1, .tup es => es.any (fun e => mentionsName x n e)
  | n + 1, .dictE kvs => kvs.any (fun kv => mentionsName x n kv.2)
  | n + 1, .attr e _ => mentionsName x n e
  | n + 1, .item e ix => mentionsName x n e || mentionsName x n ix
  | n + 1, .sliceTo e hi => mentionsName x n e || mentionsName x n hi
  | n + 1, .call _ args kwargs =>
      args.any (fun e => mentionsName x n e) || kwargs.any (fun kv => mentionsName x n kv.2)
  | n + 1, .methodCall recv _ args kwargs =>
      mentionsName x n recv || args.any (fun e => mentionsName x n e) ||
        kwargs.any (fun kv => mentionsName x n kv.2)
  | n + 1, .neg e => mentionsName x n e
  | n + 1, .pos e => mentionsName x n e
  | n + 1, .bop _ a b => mentionsName x n a || mentionsName x n b
  | n + 1, .cmpE _ a b => mentionsName x n a || mentionsName x n b
  | n + 1, .lam _ body => mentionsName x n body
  | n + 1, .listComp body _ iter => mentionsName x n body || mentionsName x n iter

/-- Is the expression a literal value: a number, string or boolean, or a
tuple/list/dict display all of whose entries are literals? -/
def isLiteralExpr : Nat → Expr → Bool
  | 0, _ => false
  | _ + 1, .num _ => true
  | _ + 1, .str _ => true
  | _ + 1, .boolLit _ => true
  | n + 1, .tup es => es.all (fun e => isLiteralExpr n e)
  | n + 1, .dictE kvs => kvs.all (fun kv => isLiteralExpr n kv.2)
  | _ + 1, _ => false

/-- Does the expression contain an arithmetic operator (`+ - * / **` or
unary minus) anywhere? -/
def hasArithOp : Nat → Expr → Bool
  | 0, _ => false
  | _ + 1, .num _ => false
  | _ + 1, .str _ => false
  | _ + 1, .boolLit _ => false
  | _ + 1, .name _ => false
  | n + 1, .tup es => es.any (fun e => hasArithOp n e)
  | n + 1, .dictE kvs => kvs.any (fun kv => hasArithOp n kv.2)
  | n + 1, .attr e _ => hasArithOp n e
  | n + 1, .item e ix => hasArithOp n e || hasArithOp n ix
  | n + 1, .sliceTo e hi => hasArithOp n e || hasArithOp n hi
  | n + 1, .call _ args kwargs =>
      args.any (fun e => hasArithOp n e) || kwargs.any (fun kv => hasArithOp n kv.2)
  | n + 1, .methodCall recv _ args kwargs =>
      hasArithOp n recv || args.any (fun e => hasArithOp n e) ||
        kwargs.any (fun kv => hasArithOp n kv.2)
  | _ + 1, .neg _ => true
  | n + 1, .pos e => hasArithOp n e
  | n + 1, .bop op a b => op.isArith || hasArithOp n a || hasArithOp n b
  | n + 1, .cmpE _ a b => hasArithOp n a || hasArithOp n b
  | n + 1, .lam _ body => hasArithOp n body
  | n + 1, .listComp body _ iter => hasArithOp n body || hasArithOp n iter

/-- Calls (by dotted callee name) that produce simulation output data:
statepoint readers, result-file readers and the pre-built neutronics model
functions whose return value is a simulation result. -/
def simOutputFns : List String :=
  ["openmc.StatePoint", "openmc.VolumeCalculation.from_hdf5",
   "openmc.deplete.ResultsList.from_hdf5", "objective", "find_tbr_hcpb",
   "gp_minimize", "read_in_data", "pd.read_json", "json.load"]

/-- Method names that produce simulation output data when invoked on a
model or statepoint object. -/
def simOutputMethods : List String :=
  ["run", "get_tally", "get_pandas_dataframe", "get_slice", "get_values",
   "get_atoms"]

/-- Is the expression derived from simulation output, given the list `dv`
of variables already known to hold simulation-derived data?  True when the
expression reads such a variable, calls a simulation-output producer, or
applies a simulation-output method. -/
def exprDerived (dv : List String) : Nat → Expr → Bool
  | 0, _ => false
  | _ + 1, .num _ => false
  | _ + 1, .str _ => false
  | _ + 1, .boolLit _ => false
  | _ + 1, .name x => dv.contains x
  | n + 1, .tup es => es.any (fun e => exprDerived dv n e)
  | n + 1, .dictE kvs => kvs.any (fun kv => exprDerived dv n kv.2)
  | n + 1, .attr e _ => exprDerived dv n e
  | n + 1, .item e ix => exprDerived dv n e || exprDerived dv n ix
  | n + 1, .sliceTo e hi => exprDerived dv n e || exprDerived dv n hi
  | n + 1, .call fn args kwargs =>
      simOutputFns.contains fn || args.any (fun e => exprDerived dv n e) ||
        kwargs.any (fun kv => exprDerived dv n kv.2)
  | n + 1, .methodCall recv m args kwargs =>
      simOutputMethods.contains m || exprDerived dv n recv ||
        args.any (fun e => exprDerived dv n e) ||
        kwargs.any (fun kv => exprDerived dv n kv.2)
  | n + 1, .neg e => exprDerived dv n e
  | n + 1, .pos e => exprDerived dv n e
  | n + 1, .bop _ a b => exprDerived dv n a || exprDerived dv n b
  | n + 1, .cmpE _ a b => exprDerived dv n a || exprDerived dv n b
  | n + 1, .lam _ body => exprDerived dv n body
  | n + 1, .listComp body v iter =>
      exprDerived dv n iter ||
        exprDerived (if exprDerived dv n iter then v :: dv else dv) n body

/-- Does the expression apply an arithmetic operator to simulation-derived
data (the notebook computing a derived quantity by its own formula)?  A
list comprehension over derived data treats its bound variable as
derived. -/
def arithOnDerived (dv : List String) : Nat → Expr → Bool
  | 0, _ => false
  | _ + 1, .num _ => false
  | _ + 1, .str _ => false
  | _ + 1, .boolLit _ => false
  | _ + 1, .name _ => false
  | n + 1, .tup es => es.any (fun e => arithOnDerived dv n e)
  | n + 1, .dictE kvs => kvs.any (fun kv => arithOnDerived dv n kv.2)
  | n + 1, .attr e _ => arithOnDerived dv n e
  | n + 1, .item e ix => arithOnDerived dv n e || arithOnDerived dv n ix
  | n + 1, .sliceTo e hi => arithOnDerived dv n e || arithOnDerived dv n hi
  | n + 1, .call _ args kwargs =>
      args.any (fun e => arithOnDerived dv n e) ||
        kwargs.any (fun kv => arithOnDerived dv n kv.2)
  | n + 1, .methodCall recv _ args kwargs =>
      arithOnDerived dv n recv || args.any (fun e => arithOnDerived dv n e) ||
        kwargs.any (fun kv => arithOnDerived dv n kv.2)
  | n + 1, .neg e => exprDerived dv n e || arithOnDerived dv n e
  | n + 1, .pos e => arithOnDerived dv n e
  | n + 1, .bop op a b =>
      (op.isArith && (exprDerived dv n a || exprDerived dv n b)) ||
        arithOnDerived dv n a || arithOnDerived dv n b
  | n + 1, .cmpE _ a b => arithOnDerived dv n a || arithOnDerived dv n b
  | n + 1, .lam _ body => arithOnDerived dv n body
  | n + 1, .listComp body v iter =>
      arithOnDerived dv n iter ||
        arithOnDerived (if exprDerived dv n iter then v :: dv else dv) n body

/-- The expressions directly contained in a statement (not descending into
nested statement bodies). -/
def stmtExprs : Stmt → List Expr
  | .imp _ => []
  | .assign _ e => [e]
  | .assignTup _ e => [e]
  | .setAttr obj _ e => [obj, e]
  | .setItem obj ix e => [obj, ix, e]
  | .exprS e => [e]
  | .shell _ => []
  | .forS _ iter _ => [iter]
  | .whileS cond _ => [cond]
  | .ifS cond _ _ => [cond]
  | .tryS _ _ => []
  | .defS _ _ _ => []
  | .withS ctx _ _ => [ctx]
  | .ret e => [e]

/-- Variables holding simulation-derived data after executing one
statement, starting from `dv`.  Statement bodies (loops, `with` blocks)
are folded through; assignments inside a function definition are local and
do not escape. -/
def stmtDv (dv : List String) : Nat → Stmt → List String
  | 0, _ => dv
  | n + 1, .assign x e => if exprDerived dv n e then x :: dv else dv
  | n + 1, .assignTup xs e => if exprDerived dv n e then xs ++ dv else dv
  | n + 1, .forS x iter body =>
      (if exprDerived dv n iter then x :: dv else dv) |> fun dv1 =>
        body.foldl (fun acc s => stmtDv acc n s) dv1
  | n + 1, .withS ctx a body =>
      (if exprDerived dv n ctx then a :: dv else dv) |> fun dv1 =>
        body.foldl (fun acc s => stmtDv acc n s) dv1
  | n + 1, .whileS _ body => body.foldl (fun acc s => stmtDv acc n s) dv
  | n + 1, .ifS _ thn els =>
      (thn ++ els).foldl (fun acc s => stmtDv acc n s) dv
  | n + 1, .tryS body handlers =>
      (body ++ handlers).foldl (fun acc s => stmtDv acc n s) dv
  | _ + 1, .defS _ _ _ => dv
  | _ + 1, .imp _ => dv
  | _ + 1, .setAttr _ _ _ => dv
  | _ + 1, .setItem _ _ _ => dv
  | _ + 1, .exprS _ => dv
  | _ + 1, .shell _ => dv
  | _ + 1, .ret _ => dv

/-- Does a single statement apply notebook-side arithmetic to
simulation-derived data (under derived-variable context `dv`)? -/
def stmtArithOnDerived (dv : List String) : Nat → Stmt → Bool
  | 0, _ => false
  | n + 1, .forS x iter body =>
      arithOnDerived dv n iter ||
        ((if exprDerived dv n iter then x :: dv else dv) |> fun dv1 =>
          (body.foldl (fun acc s => (stmtDv acc.2 n s) |> fun dv2 =>
            (acc.1 || stmtArithOnDerived acc.2 n s, dv2)) (false, dv1)).1)
  | n + 1, .withS ctx a body =>
      arithOnDerived dv n ctx ||
        ((if exprDerived dv n ctx then a :: dv else dv) |> fun dv1 =>
          (body.foldl (fun acc s => (stmtDv acc.2 n s) |> fun dv2 =>
            (acc.1 || stmtArithOnDerived acc.2 n s, dv2)) (false, dv1)).1)
  | n + 1, .whileS cond body =>
      arithOnDerived dv n cond ||
        (body.foldl (fun acc s => (stmtDv acc.2 n s) |> fun dv2 =>
          (acc.1 || stmtArithOnDerived acc.2 n s, dv2)) (false, dv)).1
  | n + 1, .ifS cond thn els =>
      arithOnDerived dv n cond ||
        ((thn ++ els).foldl (fun acc s => (stmtDv acc.2 n s) |> fun dv2 =>
          (acc.1 || stmtArithOnDerived acc.2 n s, dv2)) (false, dv)).1
  | n + 1, .tryS body handlers =>
      ((body ++ handlers).foldl (fun acc s => (stmtDv acc.2 n s) |> fun dv2 =>
        (acc.1 || stmtArithOnDerived acc.2 n s, dv2)) (false, dv)).1
  | n + 1, .defS _ _ body =>
      (body.foldl (fun acc s => (stmtDv acc.2 n s) |> fun dv2 =>
        (acc.1 || stmtArithOnDerived acc.2 n s, dv2)) (false, dv)).1
  | n + 1, s => (stmtExprs s).any (fun e => arithOnDerived dv n e)

/-- Does any statement of the list apply notebook-side arithmetic to
simulation-derived data, threading the derived-variable context through
the list in program order? -/
def stmtsArithOnDerived (dv : List String) : Nat → List Stmt → Bool
  | _, [] => false
  | 0, _ => false
  | n + 1, s :: rest =>
      stmtArithOnDerived dv (n + 1) s ||
        stmtsArithOnDerived (stmtDv dv (n + 1) s) n rest

/-- Does the notebook anywhere compute a value by applying its own
arithmetic to simulation output? -/
def hasArithOnSimOutput (nb : Notebook) : Bool :=
  stmtsArithOnDerived [] (astFuel + nb.stmts.length) nb.stmts

/-- Does the statement list contain an assignment that updates a variable
as an arithmetic function of itself (`x = … x …` with an arithmetic
operator), the shape any hand-written iterative numerical kernel
(transport sweep, depletion integrator) necessarily has? -/
def stmtsSelfArithUpdate : Nat → List Stmt → Bool
  | 0, _ => false
  | _, [] => false
  | n + 1, .assign x e :: rest =>
      (hasArithOp n e && mentionsName x n e) || stmtsSelfArithUpdate n rest
  | n + 1, .forS _ _ body :: rest =>
      stmtsSelfArithUpdate n body || stmtsSelfArithUpdate n rest
  | n + 1, .whileS _ body :: rest =>
      stmtsSelfArithUpdate n body || stmtsSelfArithUpdate n rest
  | n + 1, .ifS _ thn els :: rest =>
      stmtsSelfArithUpdate n thn || stmtsSelfArithUpdate n els ||
        stmtsSelfArithUpdate n rest
  | n + 1, .tryS body handlers :: rest =>
      stmtsSelfArithUpdate n body || stmtsSelfArithUpdate n handlers ||
        stmtsSelfArithUpdate n rest
  | n + 1, .defS _ _ body :: rest =>
      stmtsSelfArithUpdate n body || stmtsSelfArithUpdate n rest
  | n + 1, .withS _ _ body :: rest =>
      stmtsSelfArithUpdate n body || stmtsSelfArithUpdate n rest
  | n + 1, _ :: rest => stmtsSelfArithUpdate n rest

/-- Does the statement list contain a `while` loop? -/
def stmtsHaveWhile : Nat → List Stmt → Bool
  | 0, _ => false
  | _, [] => false
  | _ + 1, .whileS _ _ :: _ => true
  | n + 1, .forS _ _ body :: rest => stmtsHaveWhile n body || stmtsHaveWhile n rest
  | n + 1, .ifS _ thn els :: rest =>
      stmtsHaveWhile n thn || stmtsHaveWhile n els || stmtsHaveWhile n rest
  | n + 1, .tryS body handlers :: rest =>
      stmtsHaveWhile n body || stmtsHaveWhile n handlers || stmtsHaveWhile n rest
  | n + 1, .defS _ _ body :: rest => stmtsHaveWhile n body || stmtsHaveWhile n rest
  | n + 1, .withS _ _ body :: rest => stmtsHaveWhile n body || stmtsHaveWhile n rest
  | n + 1, _ :: rest => stmtsHaveWhile n rest

/-- Does the statement list contain a `try`/`except` block? -/
def stmtsHaveTry : Nat → List Stmt → Bool
  | 0, _ => false
  | _, [] => false
  | _ + 1, .tryS _ _ :: _ => true
  | n + 1, .forS _ _ body :: rest => stmtsHaveTry n body || stmtsHaveTry n rest
  | n + 1, .whileS _ body :: rest => stmtsHaveTry n body || stmtsHaveTry n rest
  | n + 1, .ifS _ thn els :: rest =>
      stmtsHaveTry n thn || stmtsHaveTry n els || stmtsHaveTry n rest
  | n + 1, .defS _ _ body :: rest => stmtsHaveTry n body || stmtsHaveTry n rest
  | n + 1, .withS _ _ body :: rest => stmtsHaveTry n body || stmtsHaveTry n rest
  | n + 1, _ :: rest => stmtsHaveTry n rest

/-- Does the statement list contain an `if` statement? -/
def stmtsHaveIf : Nat → List Stmt → Bool
  | 0, _ => false
  | _, [] => false
  | _ + 1, .ifS _ _ _ :: _ => true
  | n + 1, .forS _ _ body :: rest => stmtsHaveIf n body || stmtsHaveIf n rest
  | n + 1, .whileS _ body :: rest => stmtsHaveIf n body || stmtsHaveIf n rest
  | n + 1, .tryS body handlers :: rest =>
      stmtsHaveIf n body || stmtsHaveIf n handlers || stmtsHaveIf n rest
  | n + 1, .defS _ _ body :: rest => stmtsHaveIf n body || stmtsHaveIf n rest
  | n + 1, .withS _ _ body :: rest => stmtsHaveIf n body || stmtsHaveIf n rest
  | n + 1, _ :: rest => stmtsHaveIf n rest

/-- Does the expression contain a call to one of the named functions? -/
def exprContainsCall (fns : List String) : Nat → Expr → Bool
  | 0, _ => false
  | _ + 1, .num _ => false
  | _ + 1, .str _ => false
  | _ + 1, .boolLit _ => false
  | _ + 1, .name _ => false
  | n + 1, .tup es => es.any (fun e => exprContainsCall fns n e)
  | n + 1, .dictE kvs => kvs.any (fun kv => exprContainsCall fns n kv.2)
  | n + 1, .attr e _ => exprContainsCall fns n e
  | n + 1, .item e ix => exprContainsCall fns n e || exprContainsCall fns n ix
  | n + 1, .sliceTo e hi => exprContainsCall fns n e || exprContainsCall fns n hi
  | n + 1, .call fn args kwargs =>
      fns.contains fn || args.any (fun e => exprContainsCall fns n e) ||
        kwargs.any (fun kv => exprContainsCall fns n kv.2)
  | n + 1, .methodCall recv _ args kwargs =>
      exprContainsCall fns n recv || args.any (fun e => exprContainsCall fns n e) ||
        kwargs.any (fun kv => exprContainsCall fns n kv.2)
  | n + 1, .neg e => exprContainsCall fns n e
  | n + 1, .pos e => exprContainsCall fns n e
  | n + 1, .bop _ a b => exprContainsCall fns n a || exprContainsCall fns n b
  | n + 1, .cmpE _ a b => exprContainsCall fns n a || exprContainsCall fns n b
  | n + 1, .lam _ body => exprContainsCall fns n body
  | n + 1, .listComp body _ iter =>
      exprContainsCall fns n body || exprContainsCall fns n iter

/-- Does the expression contain an invocation of one of the named
methods? -/
def exprContainsMethod (ms : List String) : Nat → Expr → Bool
  | 0, _ => false
  | _ + 1, .num _ => false
  | _ + 1, .str _ => false
  | _ + 1, .boolLit _ => false
  | _ + 1, .name _ => false
  | n + 1, .tup es => es.any (fun e => exprContainsMethod ms n e)
  | n + 1, .dictE kvs => kvs.any (fun kv => exprContainsMethod ms n kv.2)
  | n + 1, .attr e _ => exprContainsMethod ms n e
  | n + 1, .item e ix => exprContainsMethod ms n e || exprContainsMethod ms n ix
  | n + 1, .sliceTo e hi => exprContainsMethod ms n e || exprContainsMethod ms n hi
  | n + 1, .call _ args kwargs =>
      args.any (fun e => exprContainsMethod ms n e) ||
        kwargs.any (fun kv => exprContainsMethod ms n kv.2)
  | n + 1, .methodCall recv m args kwargs =>
      ms.contains m || exprContainsMethod ms n recv ||
        args.any (fun e => exprContainsMethod ms n e) ||
        kwargs.any (fun kv => exprContainsMethod ms n kv.2)
  | n + 1, .neg e => exprContainsMethod ms n e
  | n + 1, .pos e => exprContainsMethod ms n e
  | n + 1, .bop _ a b => exprContainsMethod ms n a || exprContainsMethod ms n b
  | n + 1, .cmpE _ a b => exprContainsMethod ms n a || exprContainsMethod ms n b
  | n + 1, .lam _ body => exprContainsMethod ms n body
  | n + 1, .listComp body _ iter =>
      exprContainsMethod ms n body || exprContainsMethod ms n iter

/-- Does the statement list contain a call to one of the named
functions? -/
def stmtsContainCall (fns : List String) : Nat → List Stmt → Bool
  | 0, _ => false
  | _, [] => false
  | n + 1, s :: rest =>
      (stmtExprs s).any (fun e => exprContainsCall fns n e) ||
        (match s with
          | .forS _ _ body => stmtsContainCall fns n body
          | .whileS _ body => stmtsContainCall fns n body
          | .ifS _ thn els => stmtsContainCall fns n thn || stmtsContainCall fns n els
          | .tryS body handlers =>
              stmtsContainCall fns n body || stmtsContainCall fns n handlers
          | .defS _ _ body => stmtsContainCall fns n body
          | .withS _ _ body => stmtsContainCall fns n body
          | _ => false) ||
        stmtsContainCall fns n rest

/-- Does the statement list contain an invocation of one of the named
methods? -/
def stmtsContainMethod (ms : List String) : Nat → List Stmt → Bool
  | 0, _ => false
  | _, [] => false
  | n + 1, s :: rest =>
      (stmtExprs s).any (fun e => exprContainsMethod ms n e) ||
        (match s with
          | .forS _ _ body => stmtsContainMethod ms n body
          | .whileS _ body => stmtsContainMethod ms n body
          | .ifS _ thn els => stmtsContainMethod ms n thn || stmtsContainMethod ms n els
          | .tryS body handlers =>
              stmtsContainMethod ms n body || stmtsContainMethod ms n handlers
          | .defS _ _ body => stmtsContainMethod ms n body
          | .withS _ _ body => stmtsContainMethod ms n body
          | _ => false) ||
        stmtsContainMethod ms n rest

/-- Does the statement list assign the result of a `.run()` method call to
a variable (the OpenMC pattern `sp_filename = model.run()`)? -/
def stmtsAssignRun : Nat → List Stmt → Bool
  | 0, _ => false
  | _, [] => false
  | _ + 1, .assign _ (.methodCall _ "run" _ _) :: _ => true
  | n + 1, .forS _ _ body :: rest => stmtsAssignRun n body || stmtsAssignRun n rest
  | n + 1, .whileS _ body :: rest => stmtsAssignRun n body || stmtsAssignRun n rest
  | n + 1, .ifS _ thn els :: rest =>
      stmtsAssignRun n thn || stmtsAssignRun n els || stmtsAssignRun n rest
  | n + 1, .tryS body handlers :: rest =>
      stmtsAssignRun n body || stmtsAssignRun n handlers || stmtsAssignRun n rest
  | n + 1, .defS _ _ body :: rest => stmtsAssignRun n body || stmtsAssignRun n rest
  | n + 1, .withS _ _ body :: rest => stmtsAssignRun n body || stmtsAssignRun n rest
  | n + 1, _ :: rest => stmtsAssignRun n rest

/-- Does every `setAttr` statement of the list satisfy `pred` on its
right-hand side? -/
def stmtsAllSetAttrRhs (pred : Expr → Bool) : Nat → List Stmt → Bool
  | 0, _ => true
  | _, [] => true
  | n + 1, .setAttr _ _ e :: rest => pred e && stmtsAllSetAttrRhs pred n rest
  | n + 1, .forS _ _ body :: rest =>
      stmtsAllSetAttrRhs pred n body && stmtsAllSetAttrRhs pred n rest
  | n + 1, .whileS _ body :: rest =>
      stmtsAllSetAttrRhs pred n body && stmtsAllSetAttrRhs pred n rest
  | n + 1, .ifS _ thn els :: rest =>
      stmtsAllSetAttrRhs pred n thn && stmtsAllSetAttrRhs pred n els &&
        stmtsAllSetAttrRhs pred n rest
  | n + 1, .tryS body handlers :: rest =>
      stmtsAllSetAttrRhs pred n body && stmtsAllSetAttrRhs pred n handlers &&
        stmtsAllSetAttrRhs pred n rest
  | n + 1, .defS _ _ body :: rest =>
      stmtsAllSetAttrRhs pred n body && stmtsAllSetAttrRhs pred n rest
  | n + 1, .withS _ _ body :: rest =>
      stmtsAllSetAttrRhs pred n body && stmtsAllSetAttrRhs pred n rest
  | n + 1, _ :: rest => stmtsAllSetAttrRhs pred n rest

/-- Static arithmetic: an arithmetic expression whose leaves are numeric
literals, plain names or attribute reads (for example the depletion
notebook's `(4/3) * math.pi * iron_sphere_radius**3`). -/
def isStaticArith : Nat → Expr → Bool
  | 0, _ => false
  | _ + 1, .num _ => true
  | _ + 1, .name _ => true
  | n + 1, .attr e _ => isStaticArith n e
  | n + 1, .neg e => isStaticArith n e
  | n + 1, .pos e => isStaticArith n e
  | n + 1, .bop op a b => op.isArith && isStaticArith n a && isStaticArith n b
  | _ + 1, _ => false

/-! ## Transcription: "Part 1 - Performing Tritium Breeding Ratio (TBR) simulations"
(source file `src/unnamed/part_000`). -/

/-- The TBR simulation notebook, transcribed cell by cell. -/
def tbr_simulation : Notebook :=
  { name := "Part 1 - Performing Tritium Breeding Ratio (TBR) simulations"
    stmts :=
      [ Stmt.imp "IPython.display.HTML"
      , Stmt.exprS (Expr.call "HTML" [Expr.str "<iframe width=\"560\" height=\"315\" src=\"https://www.youtube.com/embed/Vc7Qy7QW4o8\" frameborder=\"0\" allow=\"accelerometer; autoplay; clipboard-write; encrypted-media; gyroscope; picture-in-picture\" allowfullscreen></iframe>"] [])
      , Stmt.imp "openmc"
      , Stmt.imp "json"
      , Stmt.imp "os"
      , Stmt.assign "breeder_material" (Expr.call "openmc.Material" [Expr.num "1", Expr.str "PbLi"] [])
      , Stmt.exprS (Expr.methodCall (Expr.name "breeder_material") "add_element" [Expr.str "Pb", Expr.num "84.2"] [("percent_type", Expr.str "ao")])
      , Stmt.exprS (Expr.methodCall (Expr.name "breeder_material") "add_element" [Expr.str "Li", Expr.num "15.8"] [("percent_type", Expr.str "ao"), ("enrichment", Expr.num "50.0"), ("enrichment_target", Expr.str "Li6"), ("enrichment_type", Expr.str "ao")])
      , Stmt.exprS (Expr.methodCall (Expr.name "breeder_material") "set_density" [Expr.str "atom/b-cm", Expr.num "3.2720171e-2"] [])
      , Stmt.assign "steel" (Expr.call "openmc.Material" [] [("name", Expr.str "steel")])
      , Stmt.exprS (Expr.methodCall (Expr.name "steel") "set_density" [Expr.str "g/cm3", Expr.num "7.75"] [])
      , Stmt.exprS (Expr.methodCall (Expr.name "steel") "add_element" [Expr.str "Fe", Expr.num "0.95"] [("percent_type", Expr.str "wo")])
      , Stmt.exprS (Expr.methodCall (Expr.name "steel") "add_element" [Expr.str "C", Expr.num "0.05"] [("percent_type", Expr.str "wo")])
      , Stmt.assign "mats" (Expr.call "openmc.Materials" [Expr.tup [Expr.name "breeder_material", Expr.name "steel"]] [])
      , Stmt.assign "vessel_inner" (Expr.call "openmc.Sphere" [] [("r", Expr.num "500")])
      , Stmt.assign "first_wall_outer_surface" (Expr.call "openmc.Sphere" [] [("r", Expr.num "510")])
      , Stmt.assign "breeder_blanket_outer_surface" (Expr.call "openmc.Sphere" [] [("r", Expr.num "610"), ("boundary_type", Expr.str "vacuum")])
      , Stmt.assign "inner_vessel_region" (Expr.neg (Expr.name "vessel_inner"))
      , Stmt.assign "inner_vessel_cell" (Expr.call "openmc.Cell" [] [("region", Expr.name "inner_vessel_region")])
      , Stmt.assign "first_wall_region" (Expr.bop BOp.band (Expr.neg (Expr.name "first_wall_outer_surface")) (Expr.pos (Expr.name "vessel_inner")))
      , Stmt.assign "first_wall_cell" (Expr.call "openmc.Cell" [] [("region", Expr.name "first_wall_region")])
      , Stmt.setAttr (Expr.name "first_wall_cell") "fill" (Expr.name "steel")
      , Stmt.assign "breeder_blanket_region" (Expr.bop BOp.band (Expr.pos (Expr.name "first_wall_outer_surface")) (Expr.neg (Expr.name "breeder_blanket_outer_surface")))
      , Stmt.assign "breeder_blanket_cell" (Expr.call "openmc.Cell" [] [("region", Expr.name "breeder_blanket_region")])
      , Stmt.setAttr (Expr.name "breeder_blanket_cell") "fill" (Expr.name "breeder_material")
      , Stmt.assign "universe" (Expr.call "openmc.Universe" [] [("cells", Expr.tup [Expr.name "inner_vessel_cell", Expr.name "first_wall_cell", Expr.name "breeder_blanket_cell"])])
      , Stmt.assign "geom" (Expr.call "openmc.Geometry" [Expr.name "universe"] [])
      , Stmt.assign "sett" (Expr.call "openmc.Settings" [] [])
      , Stmt.setAttr (Expr.name "sett") "batches" (Expr.num "10")
      , Stmt.setAttr (Expr.name "sett") "inactive" (Expr.num "0")
      , Stmt.setAttr (Expr.name "sett") "particles" (Expr.num "500")
      , Stmt.setAttr (Expr.name "sett") "run_mode" (Expr.str "fixed source")
      , Stmt.assign "source" (Expr.call "openmc.Source" [] [])
      , Stmt.setAttr (Expr.name "source") "space" (Expr.call "openmc.stats.Point" [Expr.tup [Expr.num "0", Expr.num "0", Expr.num "0"]] [])
      , Stmt.setAttr (Expr.name "source") "angle" (Expr.call "openmc.stats.Isotropic" [] [])
      , Stmt.setAttr (Expr.name "source") "energy" (Expr.call "openmc.stats.Discrete" [Expr.tup [Expr.num "14e6"], Expr.tup [Expr.num "1"]] [])
      , Stmt.setAttr (Expr.name "sett") "source" (Expr.name "source")
      , Stmt.assign "tallies" (Expr.call "openmc.Tallies" [] [])
      , Stmt.assign "cell_filter" (Expr.call "openmc.CellFilter" [Expr.name "breeder_blanket_cell"] [])
      , Stmt.assign "tbr_tally" (Expr.call "openmc.Tally" [] [("name", Expr.str "TBR")])
      , Stmt.setAttr (Expr.name "tbr_tally") "filters" (Expr.tup [Expr.name "cell_filter"])
      , Stmt.setAttr (Expr.name "tbr_tally") "scores" (Expr.tup [Expr.str "(n,Xt)"])
      , Stmt.exprS (Expr.methodCall (Expr.name "tallies") "append" [Expr.name "tbr_tally"] [])
      , Stmt.assign "model" (Expr.call "openmc.model.Model" [Expr.name "geom", Expr.name "mats", Expr.name "sett", Expr.name "tallies"] [])
      , Stmt.assign "sp_filename" (Expr.methodCall (Expr.name "model") "run" [] [])
      , Stmt.assign "sp" (Expr.call "openmc.StatePoint" [Expr.name "sp_filename"] [])
      , Stmt.assign "tbr_tally" (Expr.methodCall (Expr.name "sp") "get_tally" [] [("name", Expr.str "TBR")])
      , Stmt.assign "df" (Expr.methodCall (Expr.name "tbr_tally") "get_pandas_dataframe" [] [])
      , Stmt.assign "tbr_tally_result" (Expr.methodCall (Expr.item (Expr.name "df") (Expr.str "mean")) "sum" [] [])
      , Stmt.assign "tbr_tally_std_dev" (Expr.methodCall (Expr.item (Expr.name "df") (Expr.str "std. dev.")) "sum" [] [])
      , Stmt.exprS (Expr.call "print" [Expr.str "The tritium breeding ratio was found, TBR = ", Expr.name "tbr_tally_result"] [])
      , Stmt.exprS (Expr.call "print" [Expr.str "Standard deviation on the tbr tally is ", Expr.name "tbr_tally_std_dev"] [])
      ] }

/-! ## Transcription: "Part 1 - Making a parametric shape" (first document of
source file `src/unnamed/part_001`).  The variable `my_shape` is rebound by
successive cells, exactly as in the source. -/

/-- The paramak parametric-shape CAD notebook, transcribed cell by cell. -/
def parametric_shape_cad : Notebook :=
  { name := "Part 1 - Making a parametric shape"
    stmts :=
      [ Stmt.imp "IPython.display.HTML"
      , Stmt.exprS (Expr.call "HTML" [Expr.str "<iframe width=\"560\" height=\"315\" src=\"https://www.youtube.com/embed/Bn_TcJSOvaA\" frameborder=\"0\" allow=\"accelerometer; autoplay; clipboard-write; encrypted-media; gyroscope; picture-in-picture\" allowfullscreen></iframe>"] [])
      , Stmt.imp "paramak"
      , Stmt.assign "my_shape" (Expr.call "paramak.RotateStraightShape" [] [("points", Expr.tup [Expr.tup [Expr.num "50", Expr.num "50"], Expr.tup [Expr.num "50", Expr.num "100"], Expr.tup [Expr.num "100", Expr.num "100"], Expr.tup [Expr.num "100", Expr.num "50"]]), ("rotation_angle", Expr.num "180")])
      , Stmt.exprS (Expr.methodCall (Expr.name "my_shape") "show" [] [])
      , Stmt.assign "my_shape" (Expr.call "paramak.RotateSplineShape" [] [("points", Expr.tup [Expr.tup [Expr.num "50", Expr.num "50"], Expr.tup [Expr.num "50", Expr.num "100"], Expr.tup [Expr.num "100", Expr.num "100"], Expr.tup [Expr.num "100", Expr.num "50"]]), ("rotation_angle", Expr.num "180")])
      , Stmt.exprS (Expr.methodCall (Expr.name "my_shape") "show" [] [])
      , Stmt.assign "my_shape" (Expr.call "paramak.ExtrudeStraightShape" [] [("points", Expr.tup [Expr.tup [Expr.num "50", Expr.num "50"], Expr.tup [Expr.num "50", Expr.num "100"], Expr.tup [Expr.num "100", Expr.num "100"], Expr.tup [Expr.num "100", Expr.num "50"]]), ("distance", Expr.num "20")])
      , Stmt.exprS (Expr.methodCall (Expr.name "my_shape") "show" [] [])
      , Stmt.assign "my_shape" (Expr.call "paramak.ExtrudeSplineShape" [] [("points", Expr.tup [Expr.tup [Expr.num "50", Expr.num "50"], Expr.tup [Expr.num "50", Expr.num "100"], Expr.tup [Expr.num "100", Expr.num "100"], Expr.tup [Expr.num "100", Expr.num "50"]]), ("distance", Expr.num "20")])
      , Stmt.exprS (Expr.methodCall (Expr.name "my_shape") "show" [] [])
      , Stmt.assign "small_Shape" (Expr.call "paramak.ExtrudeStraightShape" [] [("points", Expr.tup [Expr.tup [Expr.num "60", Expr.num "60"], Expr.tup [Expr.num "60", Expr.num "90"], Expr.tup [Expr.num "90", Expr.num "90"], Expr.tup [Expr.num "90", Expr.num "60"]]), ("distance", Expr.num "20")])
      , Stmt.assign "my_shape" (Expr.call "paramak.ExtrudeStraightShape" [] [("points", Expr.tup [Expr.tup [Expr.num "50", Expr.num "50"], Expr.tup [Expr.num "50", Expr.num "100"], Expr.tup [Expr.num "100", Expr.num "100"], Expr.tup [Expr.num "100", Expr.num "50"]]), ("distance", Expr.num "20"), ("cut", Expr.name "small_Shape")])
      , Stmt.exprS (Expr.methodCall (Expr.name "my_shape") "show" [] [])
      , Stmt.exprS (Expr.methodCall (Expr.name "my_shape") "export_stp" [Expr.str "example_shape.stp"] [])
      , Stmt.exprS (Expr.methodCall (Expr.name "my_shape") "export_stl" [Expr.str "example_shape.stl"] [])
      , Stmt.imp "stl_to_h5m.stl_to_h5m"
      , Stmt.exprS (Expr.call "stl_to_h5m" [] [("files_with_tags", Expr.tup [Expr.tup [Expr.str "example_shape.stl", Expr.str "mat1"]]), ("h5m_filename", Expr.str "dagmc.h5m")])
      , Stmt.imp "os"
      , Stmt.exprS (Expr.call "os.system" [Expr.str "mbconvert dagmc.h5m dagmc.vtk"] [])
      , Stmt.imp "IPython.display.FileLink"
      , Stmt.exprS (Expr.call "display" [Expr.call "FileLink" [Expr.str "example_shape.stp"] []] [])
      , Stmt.exprS (Expr.call "display" [Expr.call "FileLink" [Expr.str "example_shape.stl"] []] [])
      , Stmt.exprS (Expr.call "display" [Expr.call "FileLink" [Expr.str "dagmc.vtk"] []] [])
      ] }

/-! ## Transcription: "Part 1 - Point source plotting" (second document of
source file `src/unnamed/part_001`). -/

/-- The OpenMC point-source plotting notebook, transcribed cell by cell. -/
def point_source_plotting : Notebook :=
  { name := "Part 1 - Point source plotting"
    stmts :=
      [ Stmt.imp "IPython.display.HTML"
      , Stmt.exprS (Expr.call "HTML" [Expr.str "<iframe width=\"560\" height=\"315\" src=\"https://www.youtube.com/embed/j9dT1Viqcu4\" frameborder=\"0\" allow=\"accelerometer; autoplay; clipboard-write; encrypted-media; gyroscope; picture-in-picture\" allowfullscreen></iframe>"] [])
      , Stmt.imp "openmc"
      , Stmt.assign "my_source" (Expr.call "openmc.Source" [] [])
      , Stmt.setAttr (Expr.name "my_source") "space" (Expr.call "openmc.stats.Point" [Expr.tup [Expr.num "0", Expr.num "0", Expr.num "0"]] [])
      , Stmt.setAttr (Expr.name "my_source") "angle" (Expr.call "openmc.stats.Isotropic" [] [])
      , Stmt.setAttr (Expr.name "my_source") "energy" (Expr.call "openmc.stats.Discrete" [Expr.tup [Expr.num "14e6"], Expr.tup [Expr.num "1"]] [])
      , Stmt.imp "openmc_source_plotter"
      , Stmt.exprS (Expr.call "osp.plot_source_energy" [] [("source", Expr.name "my_source")])
      , Stmt.assign "my_source_2" (Expr.call "openmc.Source" [] [])
      , Stmt.setAttr (Expr.name "my_source_2") "space" (Expr.call "openmc.stats.Point" [Expr.tup [Expr.num "0", Expr.num "0", Expr.num "0"]] [])
      , Stmt.setAttr (Expr.name "my_source_2") "angle" (Expr.call "openmc.stats.Isotropic" [] [])
      , Stmt.setAttr (Expr.name "my_source_2") "energy" (Expr.call "openmc.stats.Watt" [] [("a", Expr.num "988000.0"), ("b", Expr.num "2.249e-06")])
      , Stmt.exprS (Expr.call "osp.plot_source_energy" [] [("source", Expr.name "my_source_2")])
      , Stmt.assign "my_source_3" (Expr.call "openmc.Source" [] [])
      , Stmt.setAttr (Expr.name "my_source_3") "space" (Expr.call "openmc.stats.Point" [Expr.tup [Expr.num "0", Expr.num "0", Expr.num "0"]] [])
      , Stmt.setAttr (Expr.name "my_source_3") "angle" (Expr.call "openmc.stats.Isotropic" [] [])
      , Stmt.setAttr (Expr.name "my_source_3") "energy" (Expr.call "openmc.stats.Muir" [] [("e0", Expr.num "14080000.0"), ("m_rat", Expr.num "5.0"), ("kt", Expr.num "20000.0")])
      , Stmt.exprS (Expr.call "osp.plot_source_energy" [] [("source", Expr.name "my_source_3")])
      , Stmt.assign "my_source_4" (Expr.call "openmc.Source" [] [])
      , Stmt.setAttr (Expr.name "my_source_4") "space" (Expr.call "openmc.stats.Point" [Expr.tup [Expr.num "0", Expr.num "0", Expr.num "0"]] [])
      , Stmt.setAttr (Expr.name "my_source_4") "angle" (Expr.call "openmc.stats.Isotropic" [] [])
      , Stmt.setAttr (Expr.name "my_source_4") "energy" (Expr.call "openmc.stats.Discrete" [Expr.tup [Expr.num "14e6"], Expr.tup [Expr.num "1"]] [])
      , Stmt.exprS (Expr.call "osp.plot_source_position" [] [("source", Expr.name "my_source_4"), ("openmc_exec", Expr.str "/opt/conda/envs/openmc_version_0_11_0/bin/openmc")])
      , Stmt.assign "my_source_5" (Expr.call "openmc.Source" [] [])
      , Stmt.setAttr (Expr.name "my_source_5") "space" (Expr.call "openmc.stats.Point" [Expr.tup [Expr.num "0", Expr.num "0", Expr.num "0"]] [])
      , Stmt.setAttr (Expr.name "my_source_5") "angle" (Expr.call "openmc.stats.Isotropic" [] [])
      , Stmt.setAttr (Expr.name "my_source_5") "energy" (Expr.call "openmc.stats.Discrete" [Expr.tup [Expr.num "14e6"], Expr.tup [Expr.num "1"]] [])
      , Stmt.exprS (Expr.call "osp.plot_source_direction" [] [("source", Expr.name "my_source_5"), ("openmc_exec", Expr.str "/opt/conda/envs/openmc_version_0_11_0/bin/openmc")])
      ] }

/-! ## Transcription: "Part 4 - Plotting Doppler broadened cross sections"
(third document of source file `src/unnamed/part_001`). -/

/-- The Doppler-broadening plot notebook, transcribed cell by cell. -/
def doppler_broadened_xs : Notebook :=
  { name := "Part 4 - Plotting Doppler broadened cross sections"
    stmts :=
      [ Stmt.imp "IPython.display.HTML"
      , Stmt.exprS (Expr.call "HTML" [Expr.str "<iframe width=\"560\" height=\"315\" src=\"https://www.youtube.com/embed/mkl1mVnTO6g\" frameborder=\"0\" allow=\"accelerometer; autoplay; clipboard-write; encrypted-media; gyroscope; picture-in-picture\" allowfullscreen></iframe>"] [])
      , Stmt.imp "plotting_utils.create_temperature_plot_for_isotope"
      , Stmt.exprS (Expr.call "create_temperature_plot_for_isotope" [] [("isotope", Expr.str "W186"), ("temperatures", Expr.tup [Expr.num "300", Expr.num "700", Expr.num "1000"]), ("reaction", Expr.str "(n,total)")])
      , Stmt.exprS (Expr.call "create_temperature_plot_for_isotope" [] [("isotope", Expr.str "Fe56"), ("temperatures", Expr.tup [Expr.num "300", Expr.num "1000"]), ("reaction", Expr.str "(n,total)"), ("min_energy", Expr.num "1100"), ("max_energy", Expr.num "1200")])
      ] }

/-! ## Transcription: "Part 1 - Plotting neutron energy spectra in a histogram form"
(source file `src/unnamed/part_002`). -/

/-- The neutron spectra notebook, transcribed cell by cell. -/
def neutron_spectra_histogram : Notebook :=
  { name := "Part 1 - Plotting neutron energy spectra in a histogram form"
    stmts :=
      [ Stmt.imp "IPython.display.HTML"
      , Stmt.exprS (Expr.call "HTML" [Expr.str "<iframe width=\"560\" height=\"315\" src=\"https://www.youtube.com/embed/qHqAuqMLYPA\" frameborder=\"0\" allow=\"accelerometer; autoplay; clipboard-write; encrypted-media; gyroscope; picture-in-picture\" allowfullscreen></iframe>"] [])
      , Stmt.imp "openmc"
      , Stmt.assign "my_material" (Expr.call "openmc.Material" [] [("name", Expr.str "water")])
      , Stmt.exprS (Expr.methodCall (Expr.name "my_material") "add_element" [Expr.str "H", Expr.num "1"] [("percent_type", Expr.str "ao")])
      , Stmt.exprS (Expr.methodCall (Expr.name "my_material") "add_element" [Expr.str "O", Expr.num "2"] [("percent_type", Expr.str "ao")])
      , Stmt.exprS (Expr.methodCall (Expr.name "my_material") "set_density" [Expr.str "g/cm3", Expr.num "1"] [])
      , Stmt.assign "mats" (Expr.call "openmc.Materials" [Expr.tup [Expr.name "my_material"]] [])
      , Stmt.assign "vessel_inner_surface" (Expr.call "openmc.Sphere" [] [("r", Expr.num "500")])
      , Stmt.assign "vessel_rear_surface" (Expr.call "openmc.Sphere" [] [("r", Expr.num "530")])
      , Stmt.assign "outer_surface" (Expr.call "openmc.Sphere" [] [("r", Expr.num "550"), ("boundary_type", Expr.str "vacuum")])
      , Stmt.assign "inner_vessel_cell" (Expr.call "openmc.Cell" [] [("region", Expr.neg (Expr.name "vessel_inner_surface"))])
      , Stmt.assign "blanket_cell" (Expr.call "openmc.Cell" [] [("region", Expr.bop BOp.band (Expr.neg (Expr.name "vessel_rear_surface")) (Expr.pos (Expr.name "vessel_inner_surface")))])
      , Stmt.setAttr (Expr.name "blanket_cell") "fill" (Expr.name "my_material")
      , Stmt.assign "outer_vessel_cell" (Expr.call "openmc.Cell" [] [("region", Expr.bop BOp.band (Expr.pos (Expr.name "vessel_rear_surface")) (Expr.neg (Expr.name "outer_surface")))])
      , Stmt.assign "universe" (Expr.call "openmc.Universe" [] [("cells", Expr.tup [Expr.name "inner_vessel_cell", Expr.name "blanket_cell", Expr.name "outer_vessel_cell"])])
      , Stmt.assign "geom" (Expr.call "openmc.Geometry" [Expr.name "universe"] [])
      , Stmt.assign "sett" (Expr.call "openmc.Settings" [] [])
      , Stmt.setAttr (Expr.name "sett") "batches" (Expr.num "10")
      , Stmt.setAttr (Expr.name "sett") "inactive" (Expr.num "0")
      , Stmt.setAttr (Expr.name "sett") "particles" (Expr.num "1000")
      , Stmt.setAttr (Expr.name "sett") "run_mode" (Expr.str "fixed source")
      , Stmt.assign "source" (Expr.call "openmc.Source" [] [])
      , Stmt.setAttr (Expr.name "source") "space" (Expr.call "openmc.stats.Point" [Expr.tup [Expr.num "0", Expr.num "0", Expr.num "0"]] [])
      , Stmt.setAttr (Expr.name "source") "angle" (Expr.call "openmc.stats.Isotropic" [] [])
      , Stmt.setAttr (Expr.name "source") "energy" (Expr.call "openmc.stats.Discrete" [Expr.tup [Expr.num "14e6"], Expr.tup [Expr.num "1"]] [])
      , Stmt.setAttr (Expr.name "sett") "source" (Expr.name "source")
      , Stmt.imp "numpy"
      , Stmt.assign "tallies" (Expr.call "openmc.Tallies" [] [])
      , Stmt.assign "neutron_particle_filter" (Expr.call "openmc.ParticleFilter" [Expr.tup [Expr.str "neutron"]] [])
      , Stmt.assign "energy_filter" (Expr.call "openmc.EnergyFilter" [Expr.call "np.linspace" [Expr.num "0", Expr.num "15e6", Expr.num "200"] []] [])
      , Stmt.assign "cell_filter" (Expr.call "openmc.CellFilter" [Expr.name "blanket_cell"] [])
      , Stmt.assign "cell_spectra_tally" (Expr.call "openmc.Tally" [] [("name", Expr.str "cell_spectra_tally")])
      , Stmt.setAttr (Expr.name "cell_spectra_tally") "scores" (Expr.tup [Expr.str "flux"])
      , Stmt.setAttr (Expr.name "cell_spectra_tally") "filters" (Expr.tup [Expr.name "cell_filter", Expr.name "neutron_particle_filter", Expr.name "energy_filter"])
      , Stmt.exprS (Expr.methodCall (Expr.name "tallies") "append" [Expr.name "cell_spectra_tally"] [])
      , Stmt.assign "front_surface_filter" (Expr.call "openmc.SurfaceFilter" [Expr.name "vessel_inner_surface"] [])
      , Stmt.assign "back_surface_filter" (Expr.call "openmc.SurfaceFilter" [Expr.name "vessel_rear_surface"] [])
      , Stmt.assign "front_surface_spectra_tally" (Expr.call "openmc.Tally" [] [("name", Expr.str "front_surface_spectra_tally")])
      , Stmt.setAttr (Expr.name "front_surface_spectra_tally") "scores" (Expr.tup [Expr.str "current"])
      , Stmt.setAttr (Expr.name "front_surface_spectra_tally") "filters" (Expr.tup [Expr.name "front_surface_filter", Expr.name "neutron_particle_filter", Expr.name "energy_filter"])
      , Stmt.exprS (Expr.methodCall (Expr.name "tallies") "append" [Expr.name "front_surface_spectra_tally"] [])
      , Stmt.assign "back_surface_spectra_tally" (Expr.call "openmc.Tally" [] [("name", Expr.str "back_surface_spectra_tally")])
      , Stmt.setAttr (Expr.name "back_surface_spectra_tally") "scores" (Expr.tup [Expr.str "current"])
      , Stmt.setAttr (Expr.name "back_surface_spectra_tally") "filters" (Expr.tup [Expr.name "back_surface_filter", Expr.name "neutron_particle_filter", Expr.name "energy_filter"])
      , Stmt.exprS (Expr.methodCall (Expr.name "tallies") "append" [Expr.name "back_surface_spectra_tally"] [])
      , Stmt.assign "model" (Expr.call "openmc.model.Model" [Expr.name "geom", Expr.name "mats", Expr.name "sett", Expr.name "tallies"] [])
      , Stmt.shell "rm *.h5"
      , Stmt.assign "results_filename" (Expr.methodCall (Expr.name "model") "run" [] [])
      , Stmt.assign "results" (Expr.call "openmc.StatePoint" [Expr.name "results_filename"] [])
      , Stmt.assign "cell_tally" (Expr.methodCall (Expr.name "results") "get_tally" [] [("name", Expr.str "cell_spectra_tally")])
      , Stmt.imp "spectrum_plotter.plot_spectrum_from_tally"
      , Stmt.exprS (Expr.call "plot_spectrum_from_tally" [] [("spectrum", Expr.dictE [("front surface", Expr.name "cell_tally")]), ("x_label", Expr.str "energy [eV]"), ("y_label", Expr.str "flux [neutrons centimeter / source neutron]"), ("plotting_package", Expr.str "plotly")])
      , Stmt.assign "results" (Expr.call "openmc.StatePoint" [Expr.name "results_filename"] [])
      , Stmt.assign "back_surface_tally" (Expr.methodCall (Expr.name "results") "get_tally" [] [("name", Expr.str "back_surface_spectra_tally")])
      , Stmt.assign "front_surface_tally" (Expr.methodCall (Expr.name "results") "get_tally" [] [("name", Expr.str "front_surface_spectra_tally")])
      , Stmt.exprS (Expr.call "plot_spectrum_from_tally" [] [("spectrum", Expr.dictE [("back_surface_tally", Expr.name "back_surface_tally"), ("front_surface_tally", Expr.name "front_surface_tally")]), ("x_label", Expr.str "energy [eV]"), ("y_label", Expr.str "neutrons per source neutron"), ("plotting_package", Expr.str "plotly"), ("required_units", Expr.str "neutrons / source_particle")])
      ] }

/-! ## Transcription: "Task 13 - Techniques for sampling parameter space"
(second document of source file `src/unnamed/part_003`; the first document
of that file is a GitHub Actions workflow, not a notebook). -/

/-- The parameter-space sampling notebook, transcribed cell by cell. -/
def parameter_space_sampling : Notebook :=
  { name := "Task 13 - Techniques for sampling parameter space"
    stmts :=
      [ Stmt.imp "uuid"
      , Stmt.imp "pathlib.Path"
      , Stmt.imp "json"
      , Stmt.imp "pandas"
      , Stmt.imp "adaptive"
      , Stmt.imp "numpy"
      , Stmt.imp "plotly.graph_objects"
      , Stmt.imp "tqdm.tqdm"
      , Stmt.imp "plotly.subplots.make_subplots"
      , Stmt.imp "skopt.sampler.Halton"
      , Stmt.imp "skopt.space.Space"
      , Stmt.imp "skopt.sampler.Grid"
      , Stmt.imp "nest_asyncio"
      , Stmt.exprS (Expr.call "adaptive.notebook_extension" [] [])
      , Stmt.exprS (Expr.call "nest_asyncio.apply" [] [])
      , Stmt.imp "openmc_model"
      , Stmt.imp "plotting_tools.read_in_data"
      , Stmt.imp "plotting_tools.plot_simulation_results"
      , Stmt.imp "plotting_tools.plot_interpolated_results"
      , Stmt.defS "output_result" ["result"]
          [ Stmt.assign "filename" (Expr.bop BOp.add (Expr.bop BOp.add (Expr.str "outputs/") (Expr.call "str" [Expr.call "uuid.uuid4" [] []] [])) (Expr.str ".json"))
          , Stmt.exprS (Expr.methodCall (Expr.attr (Expr.call "Path" [Expr.name "filename"] []) "parent") "mkdir" [] [("parents", Expr.boolLit true), ("exist_ok", Expr.boolLit true)])
          , Stmt.withS (Expr.call "open" [Expr.name "filename"] [("mode", Expr.str "w"), ("encoding", Expr.str "utf-8")]) "f"
              [ Stmt.exprS (Expr.call "json.dump" [Expr.name "result", Expr.name "f"] [("indent", Expr.num "4")]) ]
          ]
      , Stmt.defS "show_results" ["filtered_results_df"]
          [ Stmt.assign "sample_trace" (Expr.call "plot_simulation_results" [Expr.name "filtered_results_df"] [])
          , Stmt.assign "fig" (Expr.call "go.Figure" [] [])
          , Stmt.exprS (Expr.methodCall (Expr.name "fig") "add_trace" [Expr.name "sample_trace"] [])
          , Stmt.ret (Expr.name "fig")
          ]
      , Stmt.assign "number_of_simulations" (Expr.num "16")
      , Stmt.assign "space" (Expr.call "Space" [Expr.tup [Expr.tup [Expr.num "0.", Expr.num "100."], Expr.tup [Expr.num "0.", Expr.num "100."]]] [])
      , Stmt.forS "i" (Expr.call "range" [Expr.name "number_of_simulations"] [])
          [ Stmt.assign "breeder_percent_in_breeder_plus_multiplier_ratio" (Expr.call "np.random.uniform" [Expr.num "0", Expr.num "100"] [])
          , Stmt.assign "blanket_breeder_li6_enrichment" (Expr.call "np.random.uniform" [Expr.num "1", Expr.num "100"] [])
          , Stmt.assign "result" (Expr.call "find_tbr_hcpb" [Expr.name "breeder_percent_in_breeder_plus_multiplier_ratio", Expr.name "blanket_breeder_li6_enrichment"] [])
          , Stmt.setItem (Expr.name "result") (Expr.str "sample") (Expr.str "random")
          , Stmt.exprS (Expr.call "output_result" [Expr.name "result"] [])
          ]
      , Stmt.assign "results_df" (Expr.call "pd.DataFrame" [Expr.call "read_in_data" [] []] [])
      , Stmt.assign "filtered_results_df" (Expr.item (Expr.name "results_df") (Expr.cmpE "==" (Expr.item (Expr.name "results_df") (Expr.str "sample")) (Expr.str "random")))
      , Stmt.exprS (Expr.call "show_results" [Expr.name "filtered_results_df"] [])
      , Stmt.assign "grid" (Expr.call "Grid" [] [("border", Expr.str "include"), ("use_full_layout", Expr.boolLit false)])
      , Stmt.assign "coords" (Expr.methodCall (Expr.name "grid") "generate" [Expr.attr (Expr.name "space") "dimensions", Expr.name "number_of_simulations"] [])
      , Stmt.forS "coord" (Expr.call "tqdm" [Expr.name "coords"] [])
          [ Stmt.assign "breeder_percent_in_breeder_plus_multiplier_ratio" (Expr.item (Expr.name "coord") (Expr.num "0"))
          , Stmt.assign "blanket_breeder_li6_enrichment" (Expr.item (Expr.name "coord") (Expr.num "1"))
          , Stmt.assign "result" (Expr.call "find_tbr_hcpb" [Expr.name "breeder_percent_in_breeder_plus_multiplier_ratio", Expr.name "blanket_breeder_li6_enrichment"] [])
          , Stmt.setItem (Expr.name "result") (Expr.str "sample") (Expr.str "grid")
          , Stmt.exprS (Expr.call "output_result" [Expr.name "result"] [])
          ]
      , Stmt.assign "results_df" (Expr.call "pd.DataFrame" [Expr.call "read_in_data" [] []] [])
      , Stmt.assign "filtered_results_df" (Expr.item (Expr.name "results_df") (Expr.cmpE "==" (Expr.item (Expr.name "results_df") (Expr.str "sample")) (Expr.str "grid")))
      , Stmt.exprS (Expr.call "show_results" [Expr.name "filtered_results_df"] [])
      , Stmt.assign "halton" (Expr.call "Halton" [] [])
      , Stmt.assign "coords" (Expr.methodCall (Expr.name "halton") "generate" [Expr.attr (Expr.name "space") "dimensions", Expr.name "number_of_simulations"] [])
      , Stmt.forS "coord" (Expr.call "tqdm" [Expr.name "coords"] [])
          [ Stmt.assign "breeder_percent_in_breeder_plus_multiplier_ratio" (Expr.item (Expr.name "coord") (Expr.num "0"))
          , Stmt.assign "blanket_breeder_li6_enrichment" (Expr.item (Expr.name "coord") (Expr.num "1"))
          , Stmt.assign "result" (Expr.call "find_tbr_hcpb" [Expr.name "breeder_percent_in_breeder_plus_multiplier_ratio", Expr.name "blanket_breeder_li6_enrichment"] [])
          , Stmt.setItem (Expr.name "result") (Expr.str "sample") (Expr.str "halton")
          , Stmt.exprS (Expr.call "output_result" [Expr.name "result"] [])
          ]
      , Stmt.assign "results_df" (Expr.call "pd.DataFrame" [Expr.call "read_in_data" [] []] [])
      , Stmt.assign "filtered_results_df" (Expr.item (Expr.name "results_df") (Expr.cmpE "==" (Expr.item (Expr.name "results_df") (Expr.str "sample")) (Expr.str "halton")))
      , Stmt.exprS (Expr.call "show_results" [Expr.name "filtered_results_df"] [])
      , Stmt.defS "find_tbr" ["x"]
          [ Stmt.assignTup ["breeder_percent_in_breeder_plus_multiplier_ratio", "blanket_breeder_li6_enrichment"] (Expr.name "x")
          , Stmt.assign "result" (Expr.call "find_tbr_hcpb" [Expr.name "breeder_percent_in_breeder_plus_multiplier_ratio", Expr.name "blanket_breeder_li6_enrichment"] [])
          , Stmt.setItem (Expr.name "result") (Expr.str "sample") (Expr.str "adaptive")
          , Stmt.exprS (Expr.call "output_result" [Expr.name "result"] [])
          , Stmt.ret (Expr.item (Expr.name "result") (Expr.str "tbr"))
          ]
      , Stmt.assign "learner" (Expr.call "adaptive.Learner2D" [Expr.name "find_tbr"] [("bounds", Expr.tup [Expr.tup [Expr.num "0", Expr.num "100"], Expr.tup [Expr.num "0", Expr.num "100"]])])
      , Stmt.assign "runner" (Expr.call "adaptive.Runner" [Expr.name "learner"] [("ntasks", Expr.num "1"), ("goal", Expr.lam ["l"] (Expr.cmpE ">" (Expr.attr (Expr.name "l") "npoints") (Expr.name "number_of_simulations")))])
      , Stmt.exprS (Expr.methodCall (Expr.name "runner") "live_info" [] [])
      , Stmt.exprS (Expr.methodCall (Expr.attr (Expr.name "runner") "ioloop") "run_until_complete" [Expr.attr (Expr.name "runner") "task"] [])
      , Stmt.assign "results_df" (Expr.call "pd.DataFrame" [Expr.call "read_in_data" [] []] [])
      , Stmt.assign "filtered_results_df" (Expr.item (Expr.name "results_df") (Expr.cmpE "==" (Expr.item (Expr.name "results_df") (Expr.str "sample")) (Expr.str "adaptive")))
      , Stmt.exprS (Expr.call "show_results" [Expr.name "filtered_results_df"] [])
      , Stmt.assign "results" (Expr.call "read_in_data" [] [])
      , Stmt.assign "results_df" (Expr.call "pd.DataFrame" [Expr.name "results"] [])
      , Stmt.assign "row_col_coords" (Expr.tup [Expr.tup [Expr.num "1", Expr.num "1"], Expr.tup [Expr.num "1", Expr.num "2"], Expr.tup [Expr.num "2", Expr.num "1"], Expr.tup [Expr.num "2", Expr.num "2"], Expr.tup [Expr.num "3", Expr.num "1"]])
      , Stmt.assign "sampling_methods" (Expr.tup [Expr.str "random", Expr.str "grid", Expr.str "halton", Expr.str "adaptive"])
      , Stmt.assign "interpolated_fig" (Expr.call "make_subplots" [] [("rows", Expr.num "2"), ("cols", Expr.num "2"), ("subplot_titles", Expr.tup [Expr.name "sampling_methods"])])
      , Stmt.forS "sample, coords" (Expr.call "zip" [Expr.name "sampling_methods", Expr.name "row_col_coords"] [])
          [ Stmt.assign "filtered_results_df" (Expr.item (Expr.name "results_df") (Expr.cmpE "==" (Expr.item (Expr.name "results_df") (Expr.str "sample")) (Expr.name "sample")))
          , Stmt.assign "interpolated_traces" (Expr.call "plot_interpolated_results" [Expr.name "filtered_results_df"] [])
          , Stmt.exprS (Expr.methodCall (Expr.name "interpolated_fig") "add_trace" [Expr.item (Expr.name "interpolated_traces") (Expr.num "0")] [("row", Expr.item (Expr.name "coords") (Expr.num "0")), ("col", Expr.item (Expr.name "coords") (Expr.num "1"))])
          , Stmt.exprS (Expr.methodCall (Expr.name "interpolated_fig") "add_trace" [Expr.item (Expr.name "interpolated_traces") (Expr.num "1")] [("row", Expr.item (Expr.name "coords") (Expr.num "0")), ("col", Expr.item (Expr.name "coords") (Expr.num "1"))])
          ]
      , Stmt.exprS (Expr.methodCall (Expr.name "interpolated_fig") "update_xaxes" [] [("title_text", Expr.str "Li6 enrichment percent")])
      , Stmt.exprS (Expr.methodCall (Expr.name "interpolated_fig") "update_yaxes" [] [("title_text", Expr.str "Breeder percent in breeder plus multiplier volume")])
      , Stmt.exprS (Expr.methodCall (Expr.name "interpolated_fig") "show" [] [])
      ] }

/-! ## Transcription: `src/tasks/task_01_cross_sections/1_isotope_xs_plot.ipynb` -/

/-- The isotope cross-section plotting notebook, transcribed cell by cell.
The long list of stable isotopes is transcribed in full. -/
def isotope_xs_plot : Notebook :=
  { name := "tasks/task_01_cross_sections/1_isotope_xs_plot.ipynb"
    stmts :=
      [ Stmt.imp "IPython.display.HTML"
      , Stmt.exprS (Expr.call "HTML" [Expr.str "<iframe width=\"560\" height=\"315\" src=\"https://www.youtube.com/embed/eBZ2lY_2v7I\" frameborder=\"0\" allow=\"accelerometer; autoplay; clipboard-write; encrypted-media; gyroscope; picture-in-picture\" allowfullscreen></iframe>"] [])
      , Stmt.imp "plotly.graph_objects"
      , Stmt.imp "plotting_utils.create_isotope_plot"
      , Stmt.assign "isotopes_of_interest" (Expr.tup [Expr.str "Be9", Expr.str "Pb204"])
      , Stmt.assign "reactions_of_interest" (Expr.str "(n,2n)")
      , Stmt.exprS (Expr.call "create_isotope_plot" [] [("isotopes", Expr.name "isotopes_of_interest"), ("reaction", Expr.name "reactions_of_interest")])
      , Stmt.assign "isotopes_of_interest" (Expr.tup [Expr.str "Be9", Expr.str "Pb204", Expr.str "Pb206", Expr.str "Pb207", Expr.str "Pb208"])
      , Stmt.assign "reactions_of_interest" (Expr.str "(n,2n)")
      , Stmt.exprS (Expr.call "create_isotope_plot" [] [("isotopes", Expr.name "isotopes_of_interest"), ("reaction", Expr.name "reactions_of_interest")])
      , Stmt.assign "isotopes_of_interest" (Expr.tup
          [ Expr.str "Ag107", Expr.str "Ag109", Expr.str "Al27", Expr.str "Ar36", Expr.str "Ar38", Expr.str "Ar40", Expr.str "As75", Expr.str "Au197", Expr.str "B10", Expr.str "B11", Expr.str "Ba130"
          , Expr.str "Ba132", Expr.str "Ba134", Expr.str "Ba135", Expr.str "Ba136", Expr.str "Ba137", Expr.str "Ba138", Expr.str "Be9", Expr.str "Bi209", Expr.str "Br79", Expr.str "Br81"
          , Expr.str "Ca40", Expr.str "Ca42", Expr.str "Ca43", Expr.str "Ca44", Expr.str "Ca46", Expr.str "Ca48", Expr.str "Cd106", Expr.str "Cd108", Expr.str "Cd110", Expr.str "Cd111"
          , Expr.str "Cd112", Expr.str "Cd113", Expr.str "Cd114", Expr.str "Cd116", Expr.str "Ce136", Expr.str "Ce138", Expr.str "Ce140", Expr.str "Ce142", Expr.str "Cl35", Expr.str "Cl37"
          , Expr.str "Co59", Expr.str "Cr50", Expr.str "Cr52", Expr.str "Cr53", Expr.str "Cr54", Expr.str "Cs133", Expr.str "Cu63", Expr.str "Cu65", Expr.str "Dy156", Expr.str "Dy158"
          , Expr.str "Dy160", Expr.str "Dy161", Expr.str "Dy162", Expr.str "Dy163", Expr.str "Dy164", Expr.str "Er162", Expr.str "Er164", Expr.str "Er166", Expr.str "Er167", Expr.str "Er168"
          , Expr.str "Er170", Expr.str "Eu151", Expr.str "Eu153", Expr.str "F19", Expr.str "Fe54", Expr.str "Fe56", Expr.str "Fe57", Expr.str "Fe58", Expr.str "Ga69", Expr.str "Ga71", Expr.str "Gd152"
          , Expr.str "Gd154", Expr.str "Gd155", Expr.str "Gd156", Expr.str "Gd157", Expr.str "Gd158", Expr.str "Gd160", Expr.str "Ge70", Expr.str "Ge72", Expr.str "Ge73", Expr.str "Ge74"
          , Expr.str "Ge76", Expr.str "H1", Expr.str "H2", Expr.str "He3", Expr.str "He4", Expr.str "Hf174", Expr.str "Hf176", Expr.str "Hf177", Expr.str "Hf178", Expr.str "Hf179", Expr.str "Hf180"
          , Expr.str "Hg196", Expr.str "Hg198", Expr.str "Hg199", Expr.str "Hg200", Expr.str "Hg201", Expr.str "Hg202", Expr.str "Hg204", Expr.str "Ho165", Expr.str "I127", Expr.str "In113"
          , Expr.str "In115", Expr.str "Ir191", Expr.str "Ir193", Expr.str "K39", Expr.str "K40", Expr.str "K41", Expr.str "Kr78", Expr.str "Kr80", Expr.str "Kr82", Expr.str "Kr83", Expr.str "Kr84"
          , Expr.str "Kr86", Expr.str "La138", Expr.str "La139", Expr.str "Li6", Expr.str "Li7", Expr.str "Lu175", Expr.str "Lu176", Expr.str "Mg24", Expr.str "Mg25", Expr.str "Mg26", Expr.str "Mn55"
          , Expr.str "Mo100", Expr.str "Mo92", Expr.str "Mo94", Expr.str "Mo95", Expr.str "Mo96", Expr.str "Mo97", Expr.str "Mo98", Expr.str "N14", Expr.str "N15", Expr.str "Na23", Expr.str "Nb93"
          , Expr.str "Nd142", Expr.str "Nd143", Expr.str "Nd144", Expr.str "Nd145", Expr.str "Nd146", Expr.str "Nd148", Expr.str "Nd150", Expr.str "Ni58", Expr.str "Ni60", Expr.str "Ni61"
          , Expr.str "Ni62", Expr.str "Ni64", Expr.str "O16", Expr.str "O17", Expr.str "P31", Expr.str "Pa231", Expr.str "Pb204", Expr.str "Pb206", Expr.str "Pb207", Expr.str "Pb208", Expr.str "Pd102"
          , Expr.str "Pd104", Expr.str "Pd105", Expr.str "Pd106", Expr.str "Pd108", Expr.str "Pd110", Expr.str "Pr141", Expr.str "Rb85", Expr.str "Rb87", Expr.str "Re185", Expr.str "Re187"
          , Expr.str "Rh103", Expr.str "Ru100", Expr.str "Ru101", Expr.str "Ru102", Expr.str "Ru104", Expr.str "Ru96", Expr.str "Ru98", Expr.str "Ru99", Expr.str "S32", Expr.str "S33", Expr.str "S34"
          , Expr.str "S36", Expr.str "Sb121", Expr.str "Sb123", Expr.str "Sc45", Expr.str "Se74", Expr.str "Se76", Expr.str "Se77", Expr.str "Se78", Expr.str "Se80", Expr.str "Se82", Expr.str "Si28"
          , Expr.str "Si29", Expr.str "Si30", Expr.str "Sm144", Expr.str "Sm147", Expr.str "Sm148", Expr.str "Sm149", Expr.str "Sm150", Expr.str "Sm152", Expr.str "Sm154", Expr.str "Sn112"
          , Expr.str "Sn114", Expr.str "Sn115", Expr.str "Sn116", Expr.str "Sn117", Expr.str "Sn118", Expr.str "Sn119", Expr.str "Sn120", Expr.str "Sn122", Expr.str "Sn124", Expr.str "Sr84"
          , Expr.str "Sr86", Expr.str "Sr87", Expr.str "Sr88", Expr.str "Ta180", Expr.str "Ta181", Expr.str "Tb159", Expr.str "Te120", Expr.str "Te122", Expr.str "Te123", Expr.str "Te124"
          , Expr.str "Te125", Expr.str "Te126", Expr.str "Te128", Expr.str "Te130", Expr.str "Th232", Expr.str "Ti46", Expr.str "Ti47", Expr.str "Ti48", Expr.str "Ti49", Expr.str "Ti50"
          , Expr.str "Tl203", Expr.str "Tl205", Expr.str "Tm169", Expr.str "U234", Expr.str "U235", Expr.str "U238", Expr.str "V50", Expr.str "V51", Expr.str "W180", Expr.str "W182", Expr.str "W183"
          , Expr.str "W184", Expr.str "W186", Expr.str "Xe124", Expr.str "Xe126", Expr.str "Xe128", Expr.str "Xe129", Expr.str "Xe130", Expr.str "Xe131", Expr.str "Xe132", Expr.str "Xe134"
          , Expr.str "Xe136", Expr.str "Y89", Expr.str "Zn64", Expr.str "Zn66", Expr.str "Zn67", Expr.str "Zn68", Expr.str "Zn70", Expr.str "Zr90", Expr.str "Zr91", Expr.str "Zr92", Expr.str "Zr94"
          , Expr.str "Zr96" ])
      , Stmt.assign "reactions_of_interest" (Expr.str "(n,2n)")
      , Stmt.assign "number_of_isotopes_to_plot" (Expr.num "30")
      , Stmt.exprS (Expr.call "create_isotope_plot" [] [("isotopes", Expr.sliceTo (Expr.name "isotopes_of_interest") (Expr.name "number_of_isotopes_to_plot")), ("reaction", Expr.name "reactions_of_interest")])
      ] }

/-! ## Transcription: `src/tasks/task_04_make_sources/3_plasma_source_plots.ipynb` -/

/-- The plasma-source plotting notebook, transcribed cell by cell. -/
def plasma_source_plots : Notebook :=
  { name := "tasks/task_04_make_sources/3_plasma_source_plots.ipynb"
    stmts :=
      [ Stmt.imp "random.random"
      , Stmt.imp "openmc"
      , Stmt.imp "openmc_plasma_source.TokamakSource"
      , Stmt.assign "my_source" (Expr.methodCall (Expr.call "TokamakSource" []
          [ ("elongation", Expr.num "1.557")
          , ("ion_density_centre", Expr.num "1.09e20")
          , ("ion_density_peaking_factor", Expr.num "1")
          , ("ion_density_pedestal", Expr.num "1.09e20")
          , ("ion_density_separatrix", Expr.num "3e19")
          , ("ion_temperature_centre", Expr.num "45.9")
          , ("ion_temperature_peaking_factor", Expr.num "8.06")
          , ("ion_temperature_pedestal", Expr.num "6.09")
          , ("ion_temperature_separatrix", Expr.num "0.1")
          , ("major_radius", Expr.num "9.06")
          , ("minor_radius", Expr.num "2.92258")
          , ("pedestal_radius", Expr.bop BOp.mul (Expr.num "0.8") (Expr.num "2.92258"))
          , ("mode", Expr.str "H")
          , ("shafranov_factor", Expr.num "0.44789")
          , ("triangularity", Expr.num "0.270")
          , ("ion_temperature_beta", Expr.num "6") ]) "make_openmc_sources" [] [])
      , Stmt.imp "openmc_source_plotter"
      , Stmt.exprS (Expr.call "osp.plot_source_energy" [] [("source", Expr.name "my_source")])
      , Stmt.exprS (Expr.call "osp.plot_source_position" [] [("source", Expr.name "my_source"), ("openmc_exec", Expr.str "/opt/conda/envs/openmc_version_0_11_0/bin/openmc")])
      , Stmt.exprS (Expr.call "osp.plot_source_direction" [] [("source", Expr.name "my_source"), ("openmc_exec", Expr.str "/opt/conda/envs/openmc_version_0_11_0/bin/openmc")])
      ] }

/-! ## Transcription: `src/tasks/task_06_CSG_cell_tally_DPA/1_find_dpa.ipynb` -/

/-- The DPA notebook, transcribed cell by cell, including the arithmetic
post-processing cells that turn the damage-energy tally into a DPA value. -/
def find_dpa : Notebook :=
  { name := "tasks/task_06_CSG_cell_tally_DPA/1_find_dpa.ipynb"
    stmts :=
      [ Stmt.imp "IPython.display.HTML"
      , Stmt.exprS (Expr.call "HTML" [Expr.str "<iframe width=\"560\" height=\"315\" src=\"https://youtube.com/embed/VLn59FSc4GA\" frameborder=\"0\" allow=\"accelerometer; autoplay; clipboard-write; encrypted-media; gyroscope; picture-in-picture\" allowfullscreen></iframe>"] [])
      , Stmt.imp "openmc"
      , Stmt.imp "json"
      , Stmt.assign "density_of_iron_in_g_per_cm3" (Expr.num "7.75")
      , Stmt.assign "my_material" (Expr.call "openmc.Material" [] [("name", Expr.str "Iron")])
      , Stmt.exprS (Expr.methodCall (Expr.name "my_material") "set_density" [Expr.str "g/cm3", Expr.name "density_of_iron_in_g_per_cm3"] [])
      , Stmt.exprS (Expr.methodCall (Expr.name "my_material") "add_element" [Expr.str "Fe", Expr.num "1.0"] [("percent_type", Expr.str "wo")])
      , Stmt.assign "mats" (Expr.call "openmc.Materials" [Expr.tup [Expr.name "my_material"]] [])
      , Stmt.assign "outer_surface" (Expr.call "openmc.Sphere" [] [("r", Expr.num "610"), ("boundary_type", Expr.str "vacuum")])
      , Stmt.assign "vessel_region" (Expr.neg (Expr.name "outer_surface"))
      , Stmt.assign "vessel_cell" (Expr.call "openmc.Cell" [] [("region", Expr.name "vessel_region")])
      , Stmt.setAttr (Expr.name "vessel_cell") "fill" (Expr.name "my_material")
      , Stmt.assign "universe" (Expr.call "openmc.Universe" [] [("cells", Expr.tup [Expr.name "vessel_cell"])])
      , Stmt.assign "geom" (Expr.call "openmc.Geometry" [Expr.name "universe"] [])
      , Stmt.assign "sett" (Expr.call "openmc.Settings" [] [])
      , Stmt.assign "batches" (Expr.num "10")
      , Stmt.setAttr (Expr.name "sett") "batches" (Expr.name "batches")
      , Stmt.setAttr (Expr.name "sett") "inactive" (Expr.num "0")
      , Stmt.setAttr (Expr.name "sett") "particles" (Expr.num "10000")
      , Stmt.setAttr (Expr.name "sett") "run_mode" (Expr.str "fixed source")
      , Stmt.assign "source" (Expr.call "openmc.Source" [] [])
      , Stmt.setAttr (Expr.name "source") "space" (Expr.call "openmc.stats.Point" [Expr.tup [Expr.num "0", Expr.num "0", Expr.num "0"]] [])
      , Stmt.setAttr (Expr.name "source") "angle" (Expr.call "openmc.stats.Isotropic" [] [])
      , Stmt.setAttr (Expr.name "source") "energy" (Expr.call "openmc.stats.Discrete" [Expr.tup [Expr.num "14e6"], Expr.tup [Expr.num "1"]] [])
      , Stmt.setAttr (Expr.name "sett") "source" (Expr.name "source")
      , Stmt.assign "tallies" (Expr.call "openmc.Tallies" [] [])
      , Stmt.assign "cell_filter" (Expr.call "openmc.CellFilter" [Expr.name "vessel_cell"] [])
      , Stmt.assign "reaction_tally" (Expr.call "openmc.Tally" [] [("name", Expr.str "DPA")])
      , Stmt.setAttr (Expr.name "reaction_tally") "filters" (Expr.tup [Expr.name "cell_filter"])
      , Stmt.setAttr (Expr.name "reaction_tally") "scores" (Expr.tup [Expr.str "444"])
      , Stmt.setAttr (Expr.name "reaction_tally") "nuclides" (Expr.tup [Expr.str "Fe54", Expr.str "Fe56", Expr.str "Fe57", Expr.str "Fe58"])
      , Stmt.exprS (Expr.methodCall (Expr.name "tallies") "append" [Expr.name "reaction_tally"] [])
      , Stmt.assign "model" (Expr.call "openmc.model.Model" [Expr.name "geom", Expr.name "mats", Expr.name "sett", Expr.name "tallies"] [])
      , Stmt.shell "rm *.h5"
      , Stmt.assign "sp_filename" (Expr.methodCall (Expr.name "model") "run" [] [])
      , Stmt.assign "sp" (Expr.call "openmc.StatePoint" [Expr.name "sp_filename"] [])
      , Stmt.assign "tally" (Expr.methodCall (Expr.name "sp") "get_tally" [] [("name", Expr.str "DPA")])
      , Stmt.assign "df" (Expr.methodCall (Expr.name "tally") "get_pandas_dataframe" [] [])
      , Stmt.exprS (Expr.name "df")
      , Stmt.assign "damage_energy_in_ev" (Expr.methodCall (Expr.item (Expr.name "df") (Expr.str "mean")) "sum" [] [])
      , Stmt.exprS (Expr.call "print" [Expr.str "Damage energy deposited per source neutron = ", Expr.name "damage_energy_in_ev", Expr.str "eV\n"] [])
      , Stmt.exprS (Expr.call "print" [Expr.str "Two times the threshold energy of 40eV is needed to displace an atom"] [])
      , Stmt.assign "displacements_per_source_neutron" (Expr.bop BOp.div (Expr.name "damage_energy_in_ev") (Expr.bop BOp.mul (Expr.num "2") (Expr.num "40")))
      , Stmt.exprS (Expr.call "print" [Expr.str "Displacements per source neutron = ", Expr.name "displacements_per_source_neutron", Expr.str "\n"] [])
      , Stmt.exprS (Expr.call "print" [Expr.str "Assuming about 80% remains after 20% recombine to original lattice locations"] [])
      , Stmt.assign "displacements_per_source_neutron_with_recombination" (Expr.bop BOp.mul (Expr.name "displacements_per_source_neutron") (Expr.num "0.8"))
      , Stmt.exprS (Expr.call "print" [Expr.str "Displacements per source neutron after recombination = ", Expr.name "displacements_per_source_neutron_with_recombination", Expr.str "\n"] [])
      , Stmt.assign "fusion_power" (Expr.num "3e9")
      , Stmt.assign "energy_per_fusion_reaction" (Expr.num "17.6e6")
      , Stmt.assign "eV_to_Joules" (Expr.num "1.60218e-19")
      , Stmt.assign "number_of_neutrons_per_second" (Expr.bop BOp.div (Expr.name "fusion_power") (Expr.bop BOp.mul (Expr.name "energy_per_fusion_reaction") (Expr.name "eV_to_Joules")))
      , Stmt.exprS (Expr.call "print" [Expr.str "Number of neutrons per second", Expr.name "number_of_neutrons_per_second", Expr.str "\n"] [])
      , Stmt.assign "number_of_neutrons_per_year" (Expr.bop BOp.mul (Expr.bop BOp.mul (Expr.bop BOp.mul (Expr.bop BOp.mul (Expr.name "number_of_neutrons_per_second") (Expr.num "60")) (Expr.num "60")) (Expr.num "24")) (Expr.num "365.25"))
      , Stmt.exprS (Expr.call "print" [Expr.str "Number of neutrons per full power year ", Expr.name "number_of_neutrons_per_year"] [])
      , Stmt.assign "displacements_for_all_atoms" (Expr.bop BOp.mul (Expr.name "number_of_neutrons_per_year") (Expr.name "displacements_per_source_neutron_with_recombination"))
      , Stmt.exprS (Expr.call "print" [Expr.str "Displacements for all atoms in the volume ", Expr.name "displacements_for_all_atoms", Expr.str "\n"] [])
      , Stmt.exprS (Expr.call "print" [Expr.str "Now the number of atoms in the volume must be found to find displacements per atom (DPA)"] [])
      , Stmt.assign "lower_left" (Expr.tup [Expr.num "-1000", Expr.num "-1000", Expr.num "-1000."])
      , Stmt.assign "upper_right" (Expr.tup [Expr.num "1000", Expr.num "1000", Expr.num "1000."])
      , Stmt.assign "material_vol_calc" (Expr.call "openmc.VolumeCalculation" [Expr.tup [Expr.name "my_material"], Expr.num "100000", Expr.name "lower_left", Expr.name "upper_right"] [])
      , Stmt.assign "cell_vol_calc" (Expr.call "openmc.VolumeCalculation" [Expr.tup [Expr.name "vessel_cell"], Expr.num "100000"] [])
      , Stmt.assign "settings" (Expr.call "openmc.Settings" [] [])
      , Stmt.setAttr (Expr.name "settings") "volume_calculations" (Expr.tup [Expr.name "cell_vol_calc", Expr.name "material_vol_calc"])
      , Stmt.setAttr (Expr.name "settings") "run_mode" (Expr.str "volume")
      , Stmt.exprS (Expr.methodCall (Expr.name "settings") "export_to_xml" [] [])
      , Stmt.shell "rm *.h5"
      , Stmt.exprS (Expr.call "openmc.run" [] [])
      , Stmt.assign "cell_vol_calc_results" (Expr.call "openmc.VolumeCalculation.from_hdf5" [Expr.str "volume_1.h5"] [])
      , Stmt.exprS (Expr.call "print" [Expr.str "\nvessel_cell volume", Expr.item (Expr.attr (Expr.name "cell_vol_calc_results") "volumes") (Expr.num "1"), Expr.str "cm3"] [])
      , Stmt.assign "material_vol_calc_results" (Expr.call "openmc.VolumeCalculation.from_hdf5" [Expr.str "volume_2.h5"] [])
      , Stmt.exprS (Expr.call "print" [Expr.str "my_material volume", Expr.item (Expr.attr (Expr.name "material_vol_calc_results") "volumes") (Expr.num "1"), Expr.str "cm3"] [])
      , Stmt.assign "volume_of_firstwall_cell" (Expr.attr (Expr.item (Expr.attr (Expr.name "cell_vol_calc_results") "volumes") (Expr.num "1")) "nominal_value")
      , Stmt.assign "iron_atomic_mass_in_g" (Expr.bop BOp.mul (Expr.num "55.845") (Expr.num "1.66054E-24"))
      , Stmt.assign "number_of_iron_atoms" (Expr.bop BOp.div (Expr.bop BOp.mul (Expr.name "volume_of_firstwall_cell") (Expr.name "density_of_iron_in_g_per_cm3")) (Expr.name "iron_atomic_mass_in_g"))
      , Stmt.exprS (Expr.call "print" [Expr.str "Number of iron atoms in the firstwall ", Expr.name "number_of_iron_atoms"] [])
      , Stmt.assign "DPA" (Expr.bop BOp.div (Expr.name "displacements_for_all_atoms") (Expr.name "number_of_iron_atoms"))
      , Stmt.exprS (Expr.call "print" [Expr.str "DPA =", Expr.name "DPA"] [])
      ] }

/-! ## Transcription: `src/tasks/task_08_CSG_mesh_tally/1_example_2d_mesh_tallies.ipynb`
(first document of the file: "Part 1 - 2D mesh tallies"). -/

/-- The 2D mesh-tally notebook, transcribed cell by cell. -/
def mesh_tallies_2d : Notebook :=
  { name := "tasks/task_08_CSG_mesh_tally/1_example_2d_mesh_tallies.ipynb"
    stmts :=
      [ Stmt.imp "IPython.display.HTML"
      , Stmt.exprS (Expr.call "HTML" [Expr.str "<iframe width=\"560\" height=\"315\" src=\"https://www.youtube.com/embed/KYIsDjip1nQ\" frameborder=\"0\" allow=\"accelerometer; autoplay; clipboard-write; encrypted-media; gyroscope; picture-in-picture\" allowfullscreen></iframe>"] [])
      , Stmt.imp "openmc"
      , Stmt.imp "matplotlib.pyplot"
      , Stmt.assign "mats" (Expr.call "openmc.Materials" [] [])
      , Stmt.assign "breeder_material" (Expr.call "openmc.Material" [] [("name", Expr.str "breeder")])
      , Stmt.exprS (Expr.methodCall (Expr.name "breeder_material") "add_element" [Expr.str "Li", Expr.num "1"] [("percent_type", Expr.str "ao")])
      , Stmt.exprS (Expr.methodCall (Expr.name "breeder_material") "set_density" [Expr.str "g/cm3", Expr.num "2.0"] [])
      , Stmt.assign "multiplier_material" (Expr.call "openmc.Material" [] [("name", Expr.str "multiplier")])
      , Stmt.exprS (Expr.methodCall (Expr.name "multiplier_material") "add_element" [Expr.str "Pb", Expr.num "1"] [("percent_type", Expr.str "ao")])
      , Stmt.exprS (Expr.methodCall (Expr.name "multiplier_material") "set_density" [Expr.str "g/cm3", Expr.num "11.0"] [])
      , Stmt.assign "mats" (Expr.tup [Expr.name "breeder_material", Expr.name "multiplier_material"])
      , Stmt.assign "sph1" (Expr.call "openmc.Sphere" [] [("r", Expr.num "50")])
      , Stmt.assign "sph2" (Expr.call "openmc.Sphere" [] [("r", Expr.num "90"), ("boundary_type", Expr.str "vacuum")])
      , Stmt.assign "plane1" (Expr.call "openmc.XPlane" [Expr.num "20"] [])
      , Stmt.assign "breeder_cell" (Expr.call "openmc.Cell" [] [("region", Expr.bop BOp.band (Expr.bop BOp.band (Expr.pos (Expr.name "sph1")) (Expr.neg (Expr.name "sph2"))) (Expr.neg (Expr.name "plane1")))])
      , Stmt.setAttr (Expr.name "breeder_cell") "fill" (Expr.name "breeder_material")
      , Stmt.assign "multiplier_cell" (Expr.call "openmc.Cell" [] [("region", Expr.bop BOp.band (Expr.bop BOp.band (Expr.pos (Expr.name "sph1")) (Expr.neg (Expr.name "sph2"))) (Expr.pos (Expr.name "plane1")))])
      , Stmt.setAttr (Expr.name "multiplier_cell") "fill" (Expr.name "multiplier_material")
      , Stmt.assign "inner_vacuum_cell" (Expr.call "openmc.Cell" [] [("region", Expr.neg (Expr.name "sph1"))])
      , Stmt.assign "universe" (Expr.call "openmc.Universe" [] [("cells", Expr.tup [Expr.name "inner_vacuum_cell", Expr.name "breeder_cell", Expr.name "multiplier_cell"])])
      , Stmt.assign "geom" (Expr.call "openmc.Geometry" [Expr.name "universe"] [])
      , Stmt.assign "sett" (Expr.call "openmc.Settings" [] [])
      , Stmt.setAttr (Expr.name "sett") "batches" (Expr.num "100")
      , Stmt.setAttr (Expr.name "sett") "inactive" (Expr.num "0")
      , Stmt.setAttr (Expr.name "sett") "particles" (Expr.num "50")
      , Stmt.setAttr (Expr.name "sett") "particle" (Expr.str "neutron")
      , Stmt.setAttr (Expr.name "sett") "run_mode" (Expr.str "fixed source")
      , Stmt.assign "source" (Expr.call "openmc.Source" [] [])
      , Stmt.setAttr (Expr.name "source") "space" (Expr.call "openmc.stats.Point" [Expr.tup [Expr.num "0", Expr.num "0", Expr.num "0"]] [])
      , Stmt.setAttr (Expr.name "source") "angle" (Expr.call "openmc.stats.Isotropic" [] [])
      , Stmt.setAttr (Expr.name "source") "energy" (Expr.call "openmc.stats.Discrete" [Expr.tup [Expr.num "14e6"], Expr.tup [Expr.num "1"]] [])
      , Stmt.setAttr (Expr.name "sett") "source" (Expr.name "source")
      , Stmt.assign "mesh" (Expr.call "openmc.RegularMesh" [] [])
      , Stmt.assign "mesh_height" (Expr.num "100")
      , Stmt.assign "mesh_width" (Expr.name "mesh_height")
      , Stmt.setAttr (Expr.name "mesh") "dimension" (Expr.tup [Expr.name "mesh_width", Expr.num "1", Expr.name "mesh_height"])
      , Stmt.setAttr (Expr.name "mesh") "lower_left" (Expr.tup [Expr.num "-200", Expr.num "-200", Expr.num "-200"])
      , Stmt.setAttr (Expr.name "mesh") "upper_right" (Expr.tup [Expr.num "200", Expr.num "200", Expr.num "200"])
      , Stmt.assign "tallies" (Expr.call "openmc.Tallies" [] [])
      , Stmt.assign "mesh_filter" (Expr.call "openmc.MeshFilter" [Expr.name "mesh"] [])
      , Stmt.assign "mesh_tally" (Expr.call "openmc.Tally" [] [("name", Expr.str "tallies_on_mesh")])
      , Stmt.setAttr (Expr.name "mesh_tally") "filters" (Expr.tup [Expr.name "mesh_filter"])
      , Stmt.setAttr (Expr.name "mesh_tally") "scores" (Expr.tup [Expr.str "flux", Expr.str "absorption", Expr.str "(n,2n)"])
      , Stmt.exprS (Expr.methodCall (Expr.name "tallies") "append" [Expr.name "mesh_tally"] [])
      , Stmt.assign "model" (Expr.call "openmc.model.Model" [Expr.name "geom", Expr.name "mats", Expr.name "sett", Expr.name "tallies"] [])
      , Stmt.exprS (Expr.call "plt.show" [Expr.methodCall (Expr.name "universe") "plot" [] [("width", Expr.tup [Expr.num "180", Expr.num "180"]), ("basis", Expr.str "xz")]] [])
      , Stmt.shell "rm summary.h5"
      , Stmt.shell "rm statepoint.*.h5"
      , Stmt.assign "output_filename" (Expr.methodCall (Expr.name "model") "run" [] [])
      , Stmt.assign "results" (Expr.call "openmc.StatePoint" [Expr.name "output_filename"] [])
      , Stmt.assign "my_tally" (Expr.methodCall (Expr.name "results") "get_tally" [] [("scores", Expr.tup [Expr.str "flux"])])
      , Stmt.assign "my_slice" (Expr.methodCall (Expr.name "my_tally") "get_slice" [] [("scores", Expr.tup [Expr.str "flux"])])
      , Stmt.setAttr (Expr.attr (Expr.name "my_slice") "mean") "shape" (Expr.tup [Expr.name "mesh_width", Expr.name "mesh_height"])
      , Stmt.assign "fig" (Expr.call "plt.subplot" [] [])
      , Stmt.exprS (Expr.call "plt.show" [Expr.methodCall (Expr.name "fig") "imshow" [Expr.attr (Expr.name "my_slice") "mean"] [("extent", Expr.tup [Expr.num "-200", Expr.num "200", Expr.num "-200", Expr.num "200"])]] [])
      , Stmt.assign "my_tally" (Expr.methodCall (Expr.name "results") "get_tally" [] [("scores", Expr.tup [Expr.str "absorption"])])
      , Stmt.assign "my_slice" (Expr.methodCall (Expr.name "my_tally") "get_slice" [] [("scores", Expr.tup [Expr.str "absorption"])])
      , Stmt.setAttr (Expr.attr (Expr.name "my_slice") "mean") "shape" (Expr.tup [Expr.name "mesh_width", Expr.name "mesh_height"])
      , Stmt.assign "fig" (Expr.call "plt.subplot" [] [])
      , Stmt.exprS (Expr.call "plt.show" [Expr.methodCall (Expr.name "fig") "imshow" [Expr.attr (Expr.name "my_slice") "mean"] [("extent", Expr.tup [Expr.num "-200", Expr.num "200", Expr.num "-200", Expr.num "200"])]] [])
      , Stmt.assign "my_tally" (Expr.methodCall (Expr.name "results") "get_tally" [] [("scores", Expr.tup [Expr.str "(n,2n)"])])
      , Stmt.assign "my_slice" (Expr.methodCall (Expr.name "my_tally") "get_slice" [] [("scores", Expr.tup [Expr.str "(n,2n)"])])
      , Stmt.setAttr (Expr.attr (Expr.name "my_slice") "mean") "shape" (Expr.tup [Expr.name "mesh_width", Expr.name "mesh_height"])
      , Stmt.assign "fig" (Expr.call "plt.subplot" [] [])
      , Stmt.exprS (Expr.call "plt.show" [Expr.methodCall (Expr.name "fig") "imshow" [Expr.attr (Expr.name "my_slice") "mean"] [("extent", Expr.tup [Expr.num "-200", Expr.num "200", Expr.num "-200", Expr.num "200"])]] [])
      , Stmt.assign "mesh" (Expr.call "openmc.RegularMesh" [] [])
      , Stmt.assign "mesh_height" (Expr.num "100")
      , Stmt.assign "mesh_width" (Expr.name "mesh_height")
      , Stmt.setAttr (Expr.name "mesh") "dimension" (Expr.tup [Expr.name "mesh_width", Expr.num "1", Expr.name "mesh_height"])
      , Stmt.setAttr (Expr.name "mesh") "lower_left" (Expr.tup [Expr.num "-200", Expr.num "-0.5", Expr.num "-200"])
      , Stmt.setAttr (Expr.name "mesh") "upper_right" (Expr.tup [Expr.num "200", Expr.num "0.5", Expr.num "200"])
      ] }

/-! ## Transcription: "Part 2 - Plotting photon energy spectra in a histogram form"
(second document of `src/tasks/task_08_CSG_mesh_tally/1_example_2d_mesh_tallies.ipynb`). -/

/-- The photon spectra notebook, transcribed cell by cell. -/
def photon_spectra_histogram : Notebook :=
  { name := "Part 2 - Plotting photon energy spectra in a histogram form"
    stmts :=
      [ Stmt.imp "openmc"
      , Stmt.assign "my_material" (Expr.call "openmc.Material" [] [("name", Expr.str "tungsten")])
      , Stmt.exprS (Expr.methodCall (Expr.name "my_material") "add_element" [Expr.str "W", Expr.num "1"] [("percent_type", Expr.str "ao")])
      , Stmt.exprS (Expr.methodCall (Expr.name "my_material") "set_density" [Expr.str "g/cm3", Expr.num "19"] [])
      , Stmt.assign "mats" (Expr.call "openmc.Materials" [Expr.tup [Expr.name "my_material"]] [])
      , Stmt.assign "vessel_inner_surface" (Expr.call "openmc.Sphere" [] [("r", Expr.num "500")])
      , Stmt.assign "vessel_rear_surface" (Expr.call "openmc.Sphere" [] [("r", Expr.num "530")])
      , Stmt.assign "outer_surface" (Expr.call "openmc.Sphere" [] [("r", Expr.num "550"), ("boundary_type", Expr.str "vacuum")])
      , Stmt.assign "inner_vessel_cell" (Expr.call "openmc.Cell" [] [("region", Expr.neg (Expr.name "vessel_inner_surface"))])
      , Stmt.assign "blanket_cell" (Expr.call "openmc.Cell" [] [("region", Expr.bop BOp.band (Expr.neg (Expr.name "vessel_rear_surface")) (Expr.pos (Expr.name "vessel_inner_surface")))])
      , Stmt.setAttr (Expr.name "blanket_cell") "fill" (Expr.name "my_material")
      , Stmt.assign "outer_vessel_cell" (Expr.call "openmc.Cell" [] [("region", Expr.bop BOp.band (Expr.pos (Expr.name "vessel_rear_surface")) (Expr.neg (Expr.name "outer_surface")))])
      , Stmt.assign "universe" (Expr.call "openmc.Universe" [] [("cells", Expr.tup [Expr.name "inner_vessel_cell", Expr.name "blanket_cell", Expr.name "outer_vessel_cell"])])
      , Stmt.assign "geom" (Expr.call "openmc.Geometry" [Expr.name "universe"] [])
      , Stmt.assign "sett" (Expr.call "openmc.Settings" [] [])
      , Stmt.setAttr (Expr.name "sett") "batches" (Expr.num "10")
      , Stmt.setAttr (Expr.name "sett") "inactive" (Expr.num "0")
      , Stmt.setAttr (Expr.name "sett") "particles" (Expr.num "1000")
      , Stmt.setAttr (Expr.name "sett") "run_mode" (Expr.str "fixed source")
      , Stmt.setAttr (Expr.name "sett") "photon_transport" (Expr.boolLit true)
      , Stmt.assign "source" (Expr.call "openmc.Source" [] [])
      , Stmt.setAttr (Expr.name "source") "space" (Expr.call "openmc.stats.Point" [Expr.tup [Expr.num "0", Expr.num "0", Expr.num "0"]] [])
      , Stmt.setAttr (Expr.name "source") "angle" (Expr.call "openmc.stats.Isotropic" [] [])
      , Stmt.setAttr (Expr.name "source") "particle" (Expr.str "neutron")
      , Stmt.setAttr (Expr.name "source") "energy" (Expr.call "openmc.stats.Discrete" [Expr.tup [Expr.num "14e6"], Expr.tup [Expr.num "1"]] [])
      , Stmt.setAttr (Expr.name "sett") "source" (Expr.name "source")
      , Stmt.assign "tallies" (Expr.call "openmc.Tallies" [] [])
      , Stmt.assign "neutron_particle_filter" (Expr.call "openmc.ParticleFilter" [Expr.tup [Expr.str "photon"]] [])
      , Stmt.assign "energy_filter" (Expr.call "openmc.EnergyFilter.from_group_structure" [Expr.str "VITAMIN-J-175"] [])
      , Stmt.assign "cell_filter" (Expr.call "openmc.CellFilter" [Expr.name "blanket_cell"] [])
      , Stmt.assign "cell_spectra_tally" (Expr.call "openmc.Tally" [] [("name", Expr.str "cell_spectra_tally")])
      , Stmt.setAttr (Expr.name "cell_spectra_tally") "scores" (Expr.tup [Expr.str "flux"])
      , Stmt.setAttr (Expr.name "cell_spectra_tally") "filters" (Expr.tup [Expr.name "cell_filter", Expr.name "neutron_particle_filter", Expr.name "energy_filter"])
      , Stmt.exprS (Expr.methodCall (Expr.name "tallies") "append" [Expr.name "cell_spectra_tally"] [])
      , Stmt.assign "model" (Expr.call "openmc.model.Model" [Expr.name "geom", Expr.name "mats", Expr.name "sett", Expr.name "tallies"] [])
      , Stmt.shell "rm *.h5"
      , Stmt.assign "results_filename" (Expr.methodCall (Expr.name "model") "run" [] [])
      , Stmt.assign "results" (Expr.call "openmc.StatePoint" [Expr.name "results_filename"] [])
      , Stmt.assign "cell_tally" (Expr.methodCall (Expr.name "results") "get_tally" [] [("name", Expr.str "cell_spectra_tally")])
      , Stmt.imp "spectrum_plotter.plot_spectrum_from_tally"
      , Stmt.exprS (Expr.call "plot_spectrum_from_tally" [] [("spectrum", Expr.dictE [("cell tally", Expr.name "cell_tally")]), ("x_label", Expr.str "energy [eV]"), ("y_label", Expr.str "Photons per cm2 per source neutron"), ("plotting_package", Expr.str "plotly")])
      ] }

/-! ## Transcription: `src/tasks/task_08_CSG_mesh_tally/2_example_3d_mesh_tallies.ipynb` -/

/-- The 3D mesh-tally notebook, transcribed cell by cell, including the
eV-to-joules scaling applied to the heating tally before the VTK export. -/
def mesh_tallies_3d : Notebook :=
  { name := "tasks/task_08_CSG_mesh_tally/2_example_3d_mesh_tallies.ipynb"
    stmts :=
      [ Stmt.imp "openmc"
      , Stmt.imp "os"
      , Stmt.assign "breeder_material" (Expr.call "openmc.Material" [Expr.num "1", Expr.str "PbLi"] [])
      , Stmt.exprS (Expr.methodCall (Expr.name "breeder_material") "add_element" [Expr.str "Pb", Expr.num "84.2"] [("percent_type", Expr.str "ao")])
      , Stmt.exprS (Expr.methodCall (Expr.name "breeder_material") "add_element" [Expr.str "Li", Expr.num "15.8"] [("percent_type", Expr.str "ao"), ("enrichment", Expr.num "7.0"), ("enrichment_target", Expr.str "Li6"), ("enrichment_type", Expr.str "ao")])
      , Stmt.exprS (Expr.methodCall (Expr.name "breeder_material") "set_density" [Expr.str "atom/b-cm", Expr.num "3.2720171e-2"] [])
      , Stmt.assign "copper" (Expr.call "openmc.Material" [] [("name", Expr.str "Copper")])
      , Stmt.exprS (Expr.methodCall (Expr.name "copper") "set_density" [Expr.str "g/cm3", Expr.num "8.5"] [])
      , Stmt.exprS (Expr.methodCall (Expr.name "copper") "add_element" [Expr.str "Cu", Expr.num "1.0"] [])
      , Stmt.assign "eurofer" (Expr.call "openmc.Material" [] [("name", Expr.str "iron")])
      , Stmt.exprS (Expr.methodCall (Expr.name "eurofer") "set_density" [Expr.str "g/cm3", Expr.num "7.75"] [])
      , Stmt.exprS (Expr.methodCall (Expr.name "eurofer") "add_element" [Expr.str "Fe", Expr.num "89.067"] [("percent_type", Expr.str "wo")])
      , Stmt.assign "mats" (Expr.call "openmc.Materials" [Expr.tup [Expr.name "breeder_material", Expr.name "eurofer", Expr.name "copper"]] [])
      , Stmt.assign "central_sol_surface" (Expr.call "openmc.ZCylinder" [] [("r", Expr.num "100")])
      , Stmt.assign "central_shield_outer_surface" (Expr.call "openmc.ZCylinder" [] [("r", Expr.num "110")])
      , Stmt.assign "vessel_inner_surface" (Expr.call "openmc.Sphere" [] [("r", Expr.num "500")])
      , Stmt.assign "first_wall_outer_surface" (Expr.call "openmc.Sphere" [] [("r", Expr.num "510")])
      , Stmt.assign "breeder_blanket_outer_surface" (Expr.call "openmc.Sphere" [] [("r", Expr.num "610"), ("boundary_type", Expr.str "vacuum")])
      , Stmt.assign "central_sol_region" (Expr.bop BOp.band (Expr.neg (Expr.name "central_sol_surface")) (Expr.neg (Expr.name "breeder_blanket_outer_surface")))
      , Stmt.assign "central_sol_cell" (Expr.call "openmc.Cell" [] [("region", Expr.name "central_sol_region")])
      , Stmt.setAttr (Expr.name "central_sol_cell") "fill" (Expr.name "copper")
      , Stmt.assign "central_shield_region" (Expr.bop BOp.band (Expr.bop BOp.band (Expr.pos (Expr.name "central_sol_surface")) (Expr.neg (Expr.name "central_shield_outer_surface"))) (Expr.neg (Expr.name "breeder_blanket_outer_surface")))
      , Stmt.assign "central_shield_cell" (Expr.call "openmc.Cell" [] [("region", Expr.name "central_shield_region")])
      , Stmt.setAttr (Expr.name "central_shield_cell") "fill" (Expr.name "eurofer")
      , Stmt.assign "inner_vessel_region" (Expr.bop BOp.band (Expr.neg (Expr.name "vessel_inner_surface")) (Expr.pos (Expr.name "central_shield_outer_surface")))
      , Stmt.assign "inner_vessel_cell" (Expr.call "openmc.Cell" [] [("region", Expr.name "inner_vessel_region")])
      , Stmt.assign "first_wall_region" (Expr.bop BOp.band (Expr.neg (Expr.name "first_wall_outer_surface")) (Expr.pos (Expr.name "vessel_inner_surface")))
      , Stmt.assign "first_wall_cell" (Expr.call "openmc.Cell" [] [("region", Expr.name "first_wall_region")])
      , Stmt.setAttr (Expr.name "first_wall_cell") "fill" (Expr.name "eurofer")
      , Stmt.assign "breeder_blanket_region" (Expr.bop BOp.band (Expr.bop BOp.band (Expr.pos (Expr.name "first_wall_outer_surface")) (Expr.neg (Expr.name "breeder_blanket_outer_surface"))) (Expr.pos (Expr.name "central_shield_outer_surface")))
      , Stmt.assign "breeder_blanket_cell" (Expr.call "openmc.Cell" [] [("region", Expr.name "breeder_blanket_region")])
      , Stmt.setAttr (Expr.name "breeder_blanket_cell") "fill" (Expr.name "breeder_material")
      , Stmt.assign "universe" (Expr.call "openmc.Universe" [] [("cells", Expr.tup [Expr.name "central_sol_cell", Expr.name "central_shield_cell", Expr.name "inner_vessel_cell", Expr.name "first_wall_cell", Expr.name "breeder_blanket_cell"])])
      , Stmt.assign "geom" (Expr.call "openmc.Geometry" [Expr.name "universe"] [])
      , Stmt.assign "sett" (Expr.call "openmc.Settings" [] [])
      , Stmt.assign "batches" (Expr.num "2")
      , Stmt.setAttr (Expr.name "sett") "batches" (Expr.name "batches")
      , Stmt.setAttr (Expr.name "sett") "inactive" (Expr.num "0")
      , Stmt.setAttr (Expr.name "sett") "particles" (Expr.num "5000")
      , Stmt.setAttr (Expr.name "sett") "run_mode" (Expr.str "fixed source")
      , Stmt.assign "source" (Expr.call "openmc.Source" [] [])
      , Stmt.setAttr (Expr.name "source") "angle" (Expr.call "openmc.stats.Isotropic" [] [])
      , Stmt.setAttr (Expr.name "source") "energy" (Expr.call "openmc.stats.Discrete" [Expr.tup [Expr.num "14e6"], Expr.tup [Expr.num "1"]] [])
      , Stmt.setAttr (Expr.name "source") "space" (Expr.call "openmc.stats.Point" [Expr.tup [Expr.num "150", Expr.num "150", Expr.num "0"]] [])
      , Stmt.setAttr (Expr.name "sett") "source" (Expr.name "source")
      , Stmt.assign "mesh" (Expr.call "openmc.RegularMesh" [] [])
      , Stmt.setAttr (Expr.name "mesh") "dimension" (Expr.tup [Expr.num "100", Expr.num "50", Expr.num "100"])
      , Stmt.setAttr (Expr.name "mesh") "lower_left" (Expr.tup [Expr.num "-750", Expr.num "0", Expr.num "-750"])
      , Stmt.setAttr (Expr.name "mesh") "upper_right" (Expr.tup [Expr.num "750", Expr.num "750", Expr.num "750"])
      , Stmt.assign "tallies" (Expr.call "openmc.Tallies" [] [])
      , Stmt.assign "mesh_filter" (Expr.call "openmc.MeshFilter" [Expr.name "mesh"] [])
      , Stmt.assign "mesh_tally" (Expr.call "openmc.Tally" [] [("tally_id", Expr.num "1"), ("name", Expr.str "tbr_on_mesh")])
      , Stmt.setAttr (Expr.name "mesh_tally") "filters" (Expr.tup [Expr.name "mesh_filter"])
      , Stmt.setAttr (Expr.name "mesh_tally") "scores" (Expr.tup [Expr.str "(n,Xt)"])
      , Stmt.exprS (Expr.methodCall (Expr.name "tallies") "append" [Expr.name "mesh_tally"] [])
      , Stmt.assign "mesh_tally" (Expr.call "openmc.Tally" [] [("tally_id", Expr.num "2"), ("name", Expr.str "heating_on_mesh")])
      , Stmt.setAttr (Expr.name "mesh_tally") "filters" (Expr.tup [Expr.name "mesh_filter"])
      , Stmt.setAttr (Expr.name "mesh_tally") "scores" (Expr.tup [Expr.str "heating"])
      , Stmt.exprS (Expr.methodCall (Expr.name "tallies") "append" [Expr.name "mesh_tally"] [])
      , Stmt.shell "rm s*.h5"
      , Stmt.assign "model" (Expr.call "openmc.model.Model" [Expr.name "geom", Expr.name "mats", Expr.name "sett", Expr.name "tallies"] [])
      , Stmt.assign "sp_filename" (Expr.methodCall (Expr.name "model") "run" [] [])
      , Stmt.assign "statepoint" (Expr.call "openmc.StatePoint" [Expr.str "statepoint.2.h5"] [])
      , Stmt.assign "my_tbr_tally" (Expr.methodCall (Expr.name "statepoint") "get_tally" [] [("name", Expr.str "tbr_on_mesh")])
      , Stmt.exprS (Expr.methodCall (Expr.name "mesh") "write_data_to_vtk" [] [("filename", Expr.str "tbr_tally_on_mesh.vtk"), ("datasets", Expr.dictE [("mean", Expr.attr (Expr.name "my_tbr_tally") "mean")])])
      , Stmt.assign "my_heating_tally" (Expr.methodCall (Expr.name "statepoint") "get_tally" [] [("name", Expr.str "heating_on_mesh")])
      , Stmt.exprS (Expr.methodCall (Expr.name "mesh") "write_data_to_vtk" [] [("filename", Expr.str "heating_tally_on_mesh.vtk"), ("datasets", Expr.dictE [("mean", Expr.bop BOp.mul (Expr.attr (Expr.name "my_heating_tally") "mean") (Expr.num "1.60218e-19")), ("std_dev", Expr.bop BOp.mul (Expr.attr (Expr.name "my_heating_tally") "std_dev") (Expr.num "1.60218e-19"))])])
      ] }

/-! ## Transcription:
`src/tasks/task_11_CAD_cell_tally_heat/1_simulate_CAD_neutronics_geometry_with_cell_tally_heat.ipynb` -/

/-- The CAD-geometry heating simulation notebook, transcribed cell by cell. -/
def cad_cell_tally_heat : Notebook :=
  { name := "tasks/task_11_CAD_cell_tally_heat/1_simulate_CAD_neutronics_geometry_with_cell_tally_heat.ipynb"
    stmts :=
      [ Stmt.imp "paramak"
      , Stmt.assign "plasma" (Expr.call "paramak.Plasma" [] [("minor_radius", Expr.num "150."), ("major_radius", Expr.num "450."), ("triangularity", Expr.num "0.55"), ("elongation", Expr.num "2."), ("rotation_angle", Expr.num "180"), ("name", Expr.str "plasma")])
      , Stmt.assign "blanket" (Expr.call "paramak.BlanketFP" [] [("plasma", Expr.name "plasma"), ("thickness", Expr.num "50"), ("stop_angle", Expr.num "90"), ("start_angle", Expr.num "-90"), ("offset_from_plasma", Expr.num "40"), ("rotation_angle", Expr.num "180"), ("name", Expr.str "blanket")])
      , Stmt.assign "my_reactor" (Expr.call "paramak.Reactor" [Expr.tup [Expr.name "plasma", Expr.name "blanket"]] [])
      , Stmt.exprS (Expr.methodCall (Expr.name "my_reactor") "show" [] [])
      , Stmt.shell "rm dagmc.h5m"
      , Stmt.exprS (Expr.methodCall (Expr.name "my_reactor") "export_dagmc_h5m" [] [("filename", Expr.str "dagmc.h5m"), ("min_mesh_size", Expr.num "15"), ("max_mesh_size", Expr.num "30")])
      , Stmt.imp "openmc"
      , Stmt.imp "openmc_dagmc_wrapper"
      , Stmt.imp "openmc_plasma_source"
      , Stmt.assign "geometry" (Expr.call "odw.Geometry" [] [("h5m_filename", Expr.str "dagmc.h5m"), ("reflective_angles", Expr.tup [Expr.num "0", Expr.num "180"])])
      , Stmt.assign "materials" (Expr.call "odw.Materials" [] [("h5m_filename", Expr.str "dagmc.h5m"), ("correspondence_dict", Expr.dictE [("blanket", Expr.str "Li4SiO4"), ("plasma", Expr.str "DT_plasma")])])
      , Stmt.assign "tally1" (Expr.call "odw.CellTally" [] [("tally_type", Expr.str "heating"), ("target", Expr.str "blanket"), ("materials", Expr.name "materials")])
      , Stmt.assign "tallies" (Expr.call "openmc.Tallies" [Expr.tup [Expr.name "tally1"]] [])
      , Stmt.assign "settings" (Expr.call "odw.FusionSettings" [] [])
      , Stmt.setAttr (Expr.name "settings") "batches" (Expr.num "1")
      , Stmt.setAttr (Expr.name "settings") "particles" (Expr.num "100")
      , Stmt.setAttr (Expr.name "settings") "source" (Expr.call "ops.FusionRingSource" [] [("fuel", Expr.str "DT"), ("radius", Expr.num "350"), ("angles", Expr.tup [Expr.num "0", Expr.num "3.14"])])
      , Stmt.assign "my_model" (Expr.call "openmc.Model" [] [("materials", Expr.name "materials"), ("geometry", Expr.name "geometry"), ("settings", Expr.name "settings"), ("tallies", Expr.name "tallies")])
      , Stmt.shell "rm summary.h5"
      , Stmt.shell "rm statepoint*.h5"
      , Stmt.assign "statepoint_file" (Expr.methodCall (Expr.name "my_model") "run" [] [])
      , Stmt.assign "sp" (Expr.call "openmc.StatePoint" [Expr.name "statepoint_file"] [])
      , Stmt.assign "heating_tally" (Expr.methodCall (Expr.name "sp") "get_tally" [] [("name", Expr.str "blanket_heating")])
      , Stmt.exprS (Expr.methodCall (Expr.methodCall (Expr.name "heating_tally") "get_values" [] []) "sum" [] [])
      , Stmt.imp "openmc_tally_unit_converter"
      , Stmt.assign "tally" (Expr.call "otuc.process_tally" [Expr.name "heating_tally"] [])
      , Stmt.exprS (Expr.call "print" [Expr.name "tally"] [])
      , Stmt.exprS (Expr.call "otuc.process_tally" [Expr.name "heating_tally"] [("required_units", Expr.str "MeV/source_particle")])
      , Stmt.exprS (Expr.call "otuc.process_tally" [Expr.name "heating_tally"] [("required_units", Expr.str "gigawatts"), ("source_strength", Expr.num "1e21")])
      ] }

/-! ## Transcription:
`src/tasks/task_14_activation_transmutation_depletion/1_example_transmutation_isotope_build_up.ipynb` -/

/-- The transmutation / depletion notebook, transcribed cell by cell.  Note
the `volume` attributes assigned from the arithmetic expression
`(4/3) * math.pi * r**3` and the two constructions of the
`openmc.deplete.Operator`, exactly as in the source. -/
def transmutation_isotope_build_up : Notebook :=
  { name := "tasks/task_14_activation_transmutation_depletion/1_example_transmutation_isotope_build_up.ipynb"
    stmts :=
      [ Stmt.imp "openmc"
      , Stmt.imp "openmc.deplete"
      , Stmt.imp "matplotlib.pyplot"
      , Stmt.imp "math"
      , Stmt.assign "iron_sphere_radius" (Expr.num "250")
      , Stmt.assign "mats" (Expr.call "openmc.Materials" [] [])
      , Stmt.assign "my_material" (Expr.call "openmc.Material" [] [("name", Expr.str "my_material")])
      , Stmt.exprS (Expr.methodCall (Expr.name "my_material") "add_nuclide" [Expr.str "Co59", Expr.num "1"] [("percent_type", Expr.str "ao")])
      , Stmt.exprS (Expr.methodCall (Expr.name "my_material") "set_density" [Expr.str "g/cm3", Expr.num "7.7"] [])
      , Stmt.setAttr (Expr.name "my_material") "volume" (Expr.bop BOp.mul (Expr.bop BOp.mul (Expr.bop BOp.div (Expr.num "4") (Expr.num "3")) (Expr.name "math.pi")) (Expr.bop BOp.pow (Expr.name "iron_sphere_radius") (Expr.num "3")))
      , Stmt.setAttr (Expr.name "my_material") "depletable" (Expr.boolLit true)
      , Stmt.assign "materials" (Expr.call "openmc.Materials" [Expr.tup [Expr.name "my_material"]] [])
      , Stmt.exprS (Expr.methodCall (Expr.name "materials") "export_to_xml" [] [])
      , Stmt.assign "sph1" (Expr.call "openmc.Sphere" [] [("r", Expr.name "iron_sphere_radius"), ("boundary_type", Expr.str "vacuum")])
      , Stmt.assign "shield_cell" (Expr.call "openmc.Cell" [] [("region", Expr.neg (Expr.name "sph1"))])
      , Stmt.setAttr (Expr.name "shield_cell") "fill" (Expr.name "my_material")
      , Stmt.setAttr (Expr.name "shield_cell") "volume" (Expr.bop BOp.mul (Expr.bop BOp.mul (Expr.bop BOp.div (Expr.num "4") (Expr.num "3")) (Expr.name "math.pi")) (Expr.bop BOp.pow (Expr.attr (Expr.name "sph1") "r") (Expr.num "3")))
      , Stmt.assign "universe" (Expr.call "openmc.Universe" [] [("cells", Expr.tup [Expr.name "shield_cell"])])
      , Stmt.assign "geometry" (Expr.call "openmc.Geometry" [Expr.name "universe"] [])
      , Stmt.assign "source" (Expr.call "openmc.Source" [] [])
      , Stmt.setAttr (Expr.name "source") "space" (Expr.call "openmc.stats.Point" [Expr.tup [Expr.num "0", Expr.num "0", Expr.num "0"]] [])
      , Stmt.setAttr (Expr.name "source") "angle" (Expr.call "openmc.stats.Isotropic" [] [])
      , Stmt.setAttr (Expr.name "source") "energy" (Expr.call "openmc.stats.Discrete" [Expr.tup [Expr.num "14e6"], Expr.tup [Expr.num "1"]] [])
      , Stmt.setAttr (Expr.name "source") "particles" (Expr.str "neutron")
      , Stmt.assign "settings" (Expr.call "openmc.Settings" [] [])
      , Stmt.setAttr (Expr.name "settings") "batches" (Expr.num "2")
      , Stmt.setAttr (Expr.name "settings") "inactive" (Expr.num "0")
      , Stmt.setAttr (Expr.name "settings") "particles" (Expr.num "5000")
      , Stmt.setAttr (Expr.name "settings") "source" (Expr.name "source")
      , Stmt.setAttr (Expr.name "settings") "run_mode" (Expr.str "fixed source")
      , Stmt.assign "tallies" (Expr.call "openmc.Tallies" [] [])
      , Stmt.exprS (Expr.methodCall (Expr.name "geometry") "export_to_xml" [] [])
      , Stmt.exprS (Expr.methodCall (Expr.name "settings") "export_to_xml" [] [])
      , Stmt.exprS (Expr.methodCall (Expr.name "materials") "export_to_xml" [] [])
      , Stmt.assign "model" (Expr.call "openmc.model.Model" [Expr.name "geometry", Expr.name "materials", Expr.name "settings", Expr.name "tallies"] [])
      , Stmt.assign "chain_filename" (Expr.str "/tasks/task_14_activation_transmutation_depletion/chain-nndc-b7.1.xml")
      , Stmt.assign "operator" (Expr.call "openmc.deplete.Operator" [] [("model", Expr.name "model"), ("chain_file", Expr.name "chain_filename"), ("normalization_mode", Expr.str "source-rate"), ("dilute_initial", Expr.num "0"), ("reduce_chain", Expr.boolLit true)])
      , Stmt.assign "operator" (Expr.call "openmc.deplete.Operator" [Expr.name "model", Expr.name "chain_filename"] [])
      , Stmt.assign "time_steps" (Expr.bop BOp.add (Expr.bop BOp.mul (Expr.tup [Expr.bop BOp.mul (Expr.bop BOp.mul (Expr.bop BOp.mul (Expr.num "365") (Expr.num "24")) (Expr.num "60")) (Expr.num "60")]) (Expr.num "5")) (Expr.bop BOp.mul (Expr.tup [Expr.bop BOp.mul (Expr.bop BOp.mul (Expr.bop BOp.mul (Expr.num "365") (Expr.num "24")) (Expr.num "60")) (Expr.num "60")]) (Expr.num "5")))
      , Stmt.assign "source_rates" (Expr.bop BOp.add (Expr.bop BOp.mul (Expr.tup [Expr.num "1e9"]) (Expr.num "5")) (Expr.bop BOp.mul (Expr.tup [Expr.num "0"]) (Expr.num "5")))
      , Stmt.assign "integrator" (Expr.call "openmc.deplete.PredictorIntegrator" [] [("operator", Expr.name "operator"), ("timesteps", Expr.name "time_steps"), ("source_rates", Expr.name "source_rates")])
      , Stmt.exprS (Expr.methodCall (Expr.name "integrator") "integrate" [] [])
      , Stmt.assign "results" (Expr.call "openmc.deplete.ResultsList.from_hdf5" [Expr.str "depletion_results.h5"] [])
      , Stmt.assignTup ["times", "number_of_co60_atoms"] (Expr.methodCall (Expr.name "results") "get_atoms" [Expr.name "my_material", Expr.str "Co60"] [])
      , Stmt.imp "matplotlib.pyplot"
      , Stmt.assignTup ["fig", "ax"] (Expr.call "plt.subplots" [] [])
      , Stmt.exprS (Expr.methodCall (Expr.name "ax") "plot" [Expr.name "times", Expr.name "number_of_co60_atoms"] [])
      , Stmt.exprS (Expr.methodCall (Expr.name "ax") "set" [] [("xlabel", Expr.str "time (s)"), ("ylabel", Expr.str "Number of atoms"), ("title", Expr.str "Build up of atoms saturates when decay is equal to activation this occurs at circa 5 half lives")])
      , Stmt.exprS (Expr.methodCall (Expr.name "ax") "grid" [] [])
      , Stmt.exprS (Expr.call "plt.savefig" [Expr.str "atoms.png"] [])
      , Stmt.exprS (Expr.call "plt.show" [] [])
      ] }

/-! ## Transcription:
`src/tasks/task_16_parameter_study_optimisation/parameter_study_optimisation.ipynb` -/

/-- The parameter-study optimisation notebook, transcribed cell by cell,
including the sign conventions around the minimised `objective`. -/
def parameter_study_optimisation : Notebook :=
  { name := "tasks/task_16_parameter_study_optimisation/parameter_study_optimisation.ipynb"
    stmts :=
      [ Stmt.imp "json"
      , Stmt.imp "numpy"
      , Stmt.imp "pandas"
      , Stmt.imp "adaptive"
      , Stmt.imp "holoviews"
      , Stmt.imp "ipywidgets"
      , Stmt.imp "nest_asyncio"
      , Stmt.imp "plotly.graph_objects"
      , Stmt.imp "tqdm.tqdm"
      , Stmt.imp "pathlib.Path"
      , Stmt.imp "skopt.gp_minimize"
      , Stmt.imp "skopt.utils.dump"
      , Stmt.imp "skopt.utils.load"
      , Stmt.imp "scipy.interpolate.griddata"
      , Stmt.imp "openmc_model.objective"
      , Stmt.exprS (Expr.call "adaptive.notebook_extension" [] [])
      , Stmt.exprS (Expr.call "nest_asyncio.apply" [] [])
      , Stmt.defS "output_result" ["filepath", "result"]
          [ Stmt.assign "filename" (Expr.name "filepath")
          , Stmt.exprS (Expr.methodCall (Expr.attr (Expr.call "Path" [Expr.name "filename"] []) "parent") "mkdir" [] [("parents", Expr.boolLit true), ("exist_ok", Expr.boolLit true)])
          , Stmt.withS (Expr.call "open" [Expr.name "filename"] [("mode", Expr.str "w"), ("encoding", Expr.str "utf-8")]) "f"
              [ Stmt.exprS (Expr.call "json.dump" [Expr.name "result", Expr.name "f"] [("indent", Expr.num "4")]) ]
          ]
      , Stmt.assign "tbr_values" (Expr.tup [])
      , Stmt.forS "breeder_percent_in_breeder_plus_multiplier" (Expr.call "tqdm" [Expr.call "np.linspace" [Expr.num "0", Expr.num "100", Expr.num "101"] []] [])
          [ Stmt.exprS (Expr.methodCall (Expr.name "tbr_values") "append" [Expr.dictE [("breeder_percent_in_breeder_plus_multiplier", Expr.name "breeder_percent_in_breeder_plus_multiplier"), ("tbr", Expr.neg (Expr.call "objective" [Expr.tup [Expr.name "breeder_percent_in_breeder_plus_multiplier"]] []))]] []) ]
      , Stmt.exprS (Expr.call "output_result" [Expr.str "outputs/1d_tbr_values.json", Expr.name "tbr_values"] [])
      , Stmt.assign "learner" (Expr.call "adaptive.SKOptLearner" [Expr.name "objective"] [("dimensions", Expr.tup [Expr.tup [Expr.num "0.", Expr.num "100."]]), ("base_estimator", Expr.str "GP"), ("acq_func", Expr.str "gp_hedge"), ("acq_optimizer", Expr.str "lbfgs")])
      , Stmt.assign "runner" (Expr.call "adaptive.Runner" [Expr.name "learner"] [("ntasks", Expr.num "1"), ("goal", Expr.lam ["l"] (Expr.cmpE ">" (Expr.attr (Expr.name "l") "npoints") (Expr.num "30")))])
      , Stmt.exprS (Expr.methodCall (Expr.name "runner") "live_info" [] [])
      , Stmt.exprS (Expr.methodCall (Expr.attr (Expr.name "runner") "ioloop") "run_until_complete" [Expr.attr (Expr.name "runner") "task"] [])
      , Stmt.exprS (Expr.call "output_result" [Expr.str "outputs/1d_optimised_values.json", Expr.call "dict" [Expr.attr (Expr.name "learner") "data"] []] [])
      , Stmt.assign "data" (Expr.call "pd.read_json" [Expr.str "outputs/1d_tbr_values.json"] [])
      , Stmt.assign "x_data" (Expr.item (Expr.name "data") (Expr.str "breeder_percent_in_breeder_plus_multiplier"))
      , Stmt.assign "fx" (Expr.neg (Expr.item (Expr.name "data") (Expr.str "tbr")))
      , Stmt.withS (Expr.call "open" [Expr.str "outputs/1d_optimised_values.json", Expr.str "r"] []) "f"
          [ Stmt.assign "data" (Expr.methodCall (Expr.call "json.load" [Expr.name "f"] []) "items" [] []) ]
      , Stmt.assign "x_vals" (Expr.listComp (Expr.item (Expr.name "i") (Expr.num "0")) "i" (Expr.name "data"))
      , Stmt.assign "tbr_vals" (Expr.listComp (Expr.neg (Expr.item (Expr.name "i") (Expr.num "1"))) "i" (Expr.name "data"))
      , Stmt.exprS (Expr.call "print" [Expr.str "Maximum TBR of ", Expr.item (Expr.name "tbr_vals") (Expr.num "-1"), Expr.str "found with a breeder percent in breeder plus multiplier of ", Expr.item (Expr.name "x_vals") (Expr.num "-1")] [])
      , Stmt.assign "fig" (Expr.call "go.Figure" [] [])
      , Stmt.exprS (Expr.methodCall (Expr.name "fig") "add_trace" [Expr.call "go.Scatter" [] [("x", Expr.name "x_vals"), ("y", Expr.name "tbr_vals"), ("name", Expr.str "Samples from optimisation"), ("mode", Expr.str "markers"), ("marker", Expr.call "dict" [] [("color", Expr.str "red"), ("size", Expr.num "10")])]] [])
      , Stmt.exprS (Expr.methodCall (Expr.name "fig") "add_trace" [Expr.call "go.Scatter" [] [("name", Expr.str "True value (unknown)"), ("x", Expr.name "x_data"), ("y", Expr.listComp (Expr.neg (Expr.name "i")) "i" (Expr.name "fx")), ("mode", Expr.str "lines"), ("line", Expr.dictE [("shape", Expr.str "spline")]), ("marker", Expr.call "dict" [] [("color", Expr.str "green")])]] [])
      , Stmt.exprS (Expr.methodCall (Expr.name "fig") "update_layout" [] [("title", Expr.str "Optimal breeder percent in breeder plus multiplier"), ("xaxis", Expr.dictE [("title", Expr.str "breeder percent in breeder plus multiplier"), ("range", Expr.tup [Expr.num "0", Expr.num "100"])]), ("yaxis", Expr.dictE [("title", Expr.str "TBR"), ("range", Expr.tup [Expr.num "0.1", Expr.num "2"])])])
      , Stmt.exprS (Expr.methodCall (Expr.name "fig") "show" [] [])
      , Stmt.assign "tbr_values" (Expr.tup [])
      , Stmt.forS "breeder_percent_in_breeder_plus_multiplier" (Expr.call "tqdm" [Expr.call "np.linspace" [Expr.num "0", Expr.num "100", Expr.num "20"] []] [])
          [ Stmt.forS "blanket_breeder_li6_enrichment" (Expr.call "np.linspace" [Expr.num "0", Expr.num "100", Expr.num "20"] [])
              [ Stmt.exprS (Expr.methodCall (Expr.name "tbr_values") "append" [Expr.dictE [("breeder_percent_in_breeder_plus_multiplier", Expr.name "breeder_percent_in_breeder_plus_multiplier"), ("blanket_breeder_li6_enrichment", Expr.name "blanket_breeder_li6_enrichment"), ("tbr", Expr.neg (Expr.call "objective" [Expr.tup [Expr.name "breeder_percent_in_breeder_plus_multiplier", Expr.name "blanket_breeder_li6_enrichment"]] []))]] []) ] ]
      , Stmt.exprS (Expr.call "output_result" [Expr.str "outputs/2d_tbr_values.json", Expr.name "tbr_values"] [])
      , Stmt.assign "learner" (Expr.call "adaptive.Learner2D" [Expr.name "objective"] [("bounds", Expr.tup [Expr.tup [Expr.num "0", Expr.num "100"], Expr.tup [Expr.num "0", Expr.num "100"]])])
      , Stmt.assign "runner" (Expr.call "adaptive.Runner" [Expr.name "learner"] [("ntasks", Expr.num "1"), ("goal", Expr.lam ["l"] (Expr.cmpE ">" (Expr.attr (Expr.name "l") "npoints") (Expr.num "40")))])
      , Stmt.exprS (Expr.methodCall (Expr.name "runner") "live_info" [] [])
      , Stmt.exprS (Expr.methodCall (Expr.attr (Expr.name "runner") "ioloop") "run_until_complete" [Expr.attr (Expr.name "runner") "task"] [])
      , Stmt.assign "res" (Expr.call "gp_minimize" [Expr.name "objective"] [("dimensions", Expr.tup [Expr.tup [Expr.num "0.", Expr.num "100."], Expr.tup [Expr.num "0.", Expr.num "100."]]), ("n_calls", Expr.num "40"), ("n_random_starts", Expr.num "0"), ("verbose", Expr.boolLit true), ("x0", Expr.listComp (Expr.name "i") "i" (Expr.call "list" [Expr.methodCall (Expr.attr (Expr.name "learner") "data") "keys" [] []] [])), ("y0", Expr.call "list" [Expr.methodCall (Expr.attr (Expr.name "learner") "data") "values" [] []] [])])
      , Stmt.exprS (Expr.call "dump" [Expr.name "res", Expr.str "outputs/2d_optimised_values.dat"] [])
      , Stmt.assign "data" (Expr.call "pd.read_json" [Expr.str "outputs/2d_tbr_values.json"] [])
      , Stmt.assign "x" (Expr.item (Expr.name "data") (Expr.str "breeder_percent_in_breeder_plus_multiplier"))
      , Stmt.assign "y" (Expr.item (Expr.name "data") (Expr.str "blanket_breeder_li6_enrichment"))
      , Stmt.assign "z" (Expr.item (Expr.name "data") (Expr.str "tbr"))
      , Stmt.exprS (Expr.call "print" [Expr.str "Optimal breeder_percent_in_breeder_plus_multiplier_ratio = ", Expr.item (Expr.attr (Expr.name "res") "x") (Expr.num "0")] [])
      , Stmt.exprS (Expr.call "print" [Expr.str "Optimal Li6 enrichment = ", Expr.item (Expr.attr (Expr.name "res") "x") (Expr.num "1")] [])
      , Stmt.exprS (Expr.call "print" [Expr.str "Maximum TBR = ", Expr.neg (Expr.attr (Expr.name "res") "fun")] [])
      , Stmt.assign "fig" (Expr.call "go.Figure" [] [])
      , Stmt.exprS (Expr.methodCall (Expr.name "fig") "add_trace" [Expr.call "go.Scatter3d" [] [("name", Expr.str "TBR values found during optimisation"), ("x", Expr.listComp (Expr.item (Expr.name "x") (Expr.num "0")) "x" (Expr.attr (Expr.name "res") "x_iters")), ("y", Expr.listComp (Expr.item (Expr.name "x") (Expr.num "1")) "x" (Expr.attr (Expr.name "res") "x_iters")), ("z", Expr.neg (Expr.attr (Expr.name "res") "func_vals")), ("mode", Expr.str "markers"), ("marker", Expr.call "dict" [] [("size", Expr.num "7")])]] [])
      , Stmt.exprS (Expr.methodCall (Expr.name "fig") "add_trace" [Expr.call "go.Scatter3d" [] [("name", Expr.str "True values"), ("x", Expr.name "x"), ("y", Expr.name "y"), ("z", Expr.name "z"), ("mode", Expr.str "markers"), ("marker", Expr.call "dict" [] [("size", Expr.num "7")])]] [])
      , Stmt.exprS (Expr.methodCall (Expr.name "fig") "add_trace" [Expr.call "go.Scatter3d" [] [("name", Expr.str "Maximum TBR value found"), ("x", Expr.tup [Expr.item (Expr.attr (Expr.name "res") "x") (Expr.num "0")]), ("y", Expr.tup [Expr.item (Expr.attr (Expr.name "res") "x") (Expr.num "1")]), ("z", Expr.tup [Expr.neg (Expr.attr (Expr.name "res") "fun")]), ("mode", Expr.str "markers"), ("marker", Expr.call "dict" [] [("size", Expr.num "7")])]] [])
      , Stmt.exprS (Expr.methodCall (Expr.name "fig") "update_layout" [] [("title", Expr.str "Optimal Li6 enrichment and breeder percent in breeder plus multiplier"), ("scene", Expr.dictE [("yaxis", Expr.dictE [("title", Expr.str "Li6 enrichment percent")]), ("zaxis", Expr.dictE [("title", Expr.str "breeder percent in breeder plus multiplier")]), ("zaxis", Expr.dictE [("title", Expr.str "TBR")])])])
      , Stmt.exprS (Expr.methodCall (Expr.name "fig") "show" [] [])
      , Stmt.exprS (Expr.call "print" [Expr.str "Optimal Li6 enrichment = ", Expr.item (Expr.attr (Expr.name "res") "x") (Expr.num "0")] [])
      , Stmt.exprS (Expr.call "print" [Expr.str "Optimal breeder percent in breeder plus multiplier = ", Expr.item (Expr.attr (Expr.name "res") "x") (Expr.num "1")] [])
      , Stmt.exprS (Expr.call "print" [Expr.str "Maximum TBR = ", Expr.neg (Expr.attr (Expr.name "res") "fun")] [])
      , Stmt.assign "xi" (Expr.call "np.linspace" [Expr.num "0", Expr.num "100", Expr.num "100"] [])
      , Stmt.assign "yi" (Expr.call "np.linspace" [Expr.num "0", Expr.num "100", Expr.num "100"] [])
      , Stmt.assign "zi" (Expr.call "griddata" [Expr.tup [Expr.name "x", Expr.name "y"], Expr.name "z", Expr.tup [Expr.item (Expr.name "xi") (Expr.name "None,:"), Expr.item (Expr.name "yi") (Expr.name ":,None")]] [("method", Expr.str "linear")])
      , Stmt.assign "fig" (Expr.call "go.Figure" [] [])
      , Stmt.exprS (Expr.methodCall (Expr.name "fig") "add_trace" [] [("trace", Expr.call "go.Contour" [] [("z", Expr.name "zi"), ("x", Expr.name "yi"), ("y", Expr.name "xi"), ("colorscale", Expr.str "Viridis"), ("opacity", Expr.num "0.9"), ("line", Expr.call "dict" [] [("width", Expr.num "0"), ("smoothing", Expr.num "0.85")]), ("contours", Expr.call "dict" [] [("showlines", Expr.boolLit false), ("showlabels", Expr.boolLit false), ("size", Expr.num "0"), ("labelfont", Expr.call "dict" [] [("size", Expr.num "15")])])])])
      , Stmt.exprS (Expr.methodCall (Expr.name "fig") "add_trace" [Expr.call "go.Scatter" [] [("name", Expr.str "TBR values found during optimisation"), ("x", Expr.listComp (Expr.item (Expr.name "x") (Expr.num "0")) "x" (Expr.attr (Expr.name "res") "x_iters")), ("y", Expr.listComp (Expr.item (Expr.name "x") (Expr.num "1")) "x" (Expr.attr (Expr.name "res") "x_iters")), ("hovertext", Expr.neg (Expr.attr (Expr.name "res") "func_vals")), ("hoverinfo", Expr.str "text"), ("marker", Expr.dictE [("size", Expr.num "8")]), ("mode", Expr.str "markers")]] [])
      , Stmt.exprS (Expr.methodCall (Expr.name "fig") "add_trace" [Expr.call "go.Scatter" [] [("name", Expr.str "Maximum TBR value found"), ("x", Expr.tup [Expr.item (Expr.attr (Expr.name "res") "x") (Expr.num "0")]), ("y", Expr.tup [Expr.item (Expr.attr (Expr.name "res") "x") (Expr.num "1")]), ("hovertext", Expr.tup [Expr.neg (Expr.attr (Expr.name "res") "fun")]), ("hoverinfo", Expr.str "text"), ("marker", Expr.dictE [("size", Expr.num "8")]), ("mode", Expr.str "markers")]] [])
      , Stmt.exprS (Expr.methodCall (Expr.name "fig") "update_layout" [] [("title", Expr.str ""), ("xaxis", Expr.dictE [("title", Expr.str "breeder percent in breeder plus multiplier"), ("range", Expr.tup [Expr.num "-1", Expr.num "101"])]), ("yaxis", Expr.dictE [("title", Expr.str "blanket breeder li6 enrichment"), ("range", Expr.tup [Expr.num "-1", Expr.num "101"])]), ("legend_orientation", Expr.str "h")])
      , Stmt.exprS (Expr.methodCall (Expr.name "fig") "show" [] [])
      ] }

/-- All notebooks of the repository, in directory order. -/
def repositoryNotebooks : List Notebook :=
  [ tbr_simulation
  , parametric_shape_cad
  , point_source_plotting
  , doppler_broadened_xs
  , neutron_spectra_histogram
  , parameter_space_sampling
  , isotope_xs_plot
  , plasma_source_plots
  , find_dpa
  , mesh_tallies_2d
  , photon_spectra_histogram
  , mesh_tallies_3d
  , cad_cell_tally_heat
  , transmutation_isotope_build_up
  , parameter_study_optimisation
  ]

/-! ## Claim-level checkers over the deep embedding -/

/-- No notebook contains a hand-written iterative numerical kernel: there is
no `while` loop and no assignment updating a variable as an arithmetic
function of itself anywhere in the repository. -/
def noHandWrittenKernels (nbs : List Notebook) : Bool :=
  nbs.all (fun nb =>
    !stmtsSelfArithUpdate astFuel nb.stmts && !stmtsHaveWhile astFuel nb.stmts)

/-- Claim C1 as stated: no hand-written kernels, and no notebook computes a
derived quantity by applying its own arithmetic to simulation output. -/
def claimC1checker (nbs : List Notebook) : Bool :=
  noHandWrittenKernels nbs && nbs.all (fun nb => !hasArithOnSimOutput nb)

/-- The names of the notebooks that do apply their own arithmetic to
simulation output. -/
def arithNotebookNames (nbs : List Notebook) : List String :=
  (nbs.filter hasArithOnSimOutput).map Notebook.name

/-- Claim C2 as stated: every attribute populated on a constructed object
is assigned a literal value. -/
def claimC2checker (nbs : List Notebook) : Bool :=
  nbs.all (fun nb =>
    stmtsAllSetAttrRhs (fun e => isLiteralExpr astFuel e) astFuel nb.stmts)

/-- Is the expression a bare identifier? -/
def isNameE : Expr → Bool
  | .name _ => true
  | _ => false

/-- Is the expression a function, constructor or method call? -/
def isCallE : Expr → Bool
  | .call _ _ _ => true
  | .methodCall _ _ _ _ => true
  | _ => false

/-- Is the expression a tuple/list/dict whose entries are literals or
names? -/
def isCollectionOfLitName : Nat → Expr → Bool
  | 0, _ => false
  | n + 1, .tup es => es.all (fun e => isLiteralExpr n e || isNameE e)
  | n + 1, .dictE kvs => kvs.all (fun kv => isLiteralExpr n kv.2 || isNameE kv.2)
  | _ + 1, _ => false

/-- The right-hand-side classes that actually occur in attribute
assignments across the notebooks: literal values, previously bound names,
collections of literals and names, results of library calls, and static
arithmetic over literals, names and attribute reads. -/
def allowedAttrRhs (n : Nat) (e : Expr) : Bool :=
  isLiteralExpr n e || isNameE e || isCollectionOfLitName n e || isCallE e ||
    isStaticArith n e

/-- Claim C4: no `try`/`except`, no `if`, no `while` anywhere in the
notebooks — hence no retry, recovery or validation logic. -/
def claimC4checker (nbs : List Notebook) : Bool :=
  nbs.all (fun nb =>
    !stmtsHaveTry astFuel nb.stmts && !stmtsHaveIf astFuel nb.stmts &&
      !stmtsHaveWhile astFuel nb.stmts)

/-- Does the notebook run a transport simulation, i.e. assign the return
value of a model's `.run()`? -/
def runsTransport (nb : Notebook) : Bool :=
  stmtsAssignRun astFuel nb.stmts

/-- The transport-simulation notebooks of a repository. -/
def transportNotebooks (nbs : List Notebook) : List Notebook :=
  nbs.filter runsTransport

/-- Constructors of OpenMC material collections (plain API and the
openmc-dagmc-wrapper used by the CAD notebook). -/
def materialCtors : List String := ["openmc.Material", "odw.Materials"]

/-- Constructors of OpenMC geometries. -/
def geometryCtors : List String := ["openmc.Geometry", "odw.Geometry"]

/-- Constructors of OpenMC settings objects. -/
def settingsCtors : List String := ["openmc.Settings", "odw.FusionSettings"]

/-- Constructors of OpenMC tallies. -/
def tallyCtors : List String := ["openmc.Tally", "odw.CellTally"]

/-- Constructors of OpenMC particle sources. -/
def sourceCtors : List String := ["openmc.Source", "ops.FusionRingSource"]

/-- Does the notebook construct Material, Geometry, Settings, Tally and
Source objects? -/
def constructsModelObjects (nb : Notebook) : Bool :=
  stmtsContainCall materialCtors astFuel nb.stmts &&
    stmtsContainCall geometryCtors astFuel nb.stmts &&
    stmtsContainCall settingsCtors astFuel nb.stmts &&
    stmtsContainCall tallyCtors astFuel nb.stmts &&
    stmtsContainCall sourceCtors astFuel nb.stmts

/-- Does the notebook read results back through `openmc.StatePoint`? -/
def readsStatePoint (nb : Notebook) : Bool :=
  stmtsContainCall ["openmc.StatePoint"] astFuel nb.stmts

/-- Does the notebook retrieve a tally from the statepoint? -/
def getsTallyFromStatePoint (nb : Notebook) : Bool :=
  stmtsContainMethod ["get_tally"] astFuel nb.stmts

/-- Does the notebook extract tally results as a pandas dataframe? -/
def extractsPandasDataframe (nb : Notebook) : Bool :=
  stmtsContainMethod ["get_pandas_dataframe"] astFuel nb.stmts

/-- Claim C5 as stated: every transport notebook constructs the model
objects, assigns the filename returned by `run()`, reads the statepoint
back, and extracts tallies as tabular (pandas dataframe) data. -/
def claimC5checker (nbs : List Notebook) : Bool :=
  (transportNotebooks nbs).all (fun nb =>
    constructsModelObjects nb && stmtsAssignRun astFuel nb.stmts &&
      readsStatePoint nb && extractsPandasDataframe nb)

/-! ## Shallow model: DPA post-processing of `1_find_dpa.ipynb` (claim C8)

The definitions below are the arithmetic of the notebook's post-processing
cells, over `ℚ` (every constant in the source is an exact decimal literal).
The per-nuclide damage-energy tally means and the stochastically computed
cell volume are the two simulation inputs and stay abstract. -/

/-- `density_of_iron_in_g_per_cm3 = 7.75`. -/
def density_of_iron_in_g_per_cm3 : ℚ := 7.75

/-- `damage_energy_in_ev = df['mean'].sum()`: the sum of the per-nuclide
damage-energy tally means. -/
def damage_energy_in_ev (per_nuclide_means : List ℚ) : ℚ :=
  per_nuclide_means.sum

/-- `displacements_per_source_neutron = damage_energy_in_ev / (2*40)`. -/
def displacements_per_source_neutron (damage_energy : ℚ) : ℚ :=
  damage_energy / (2 * 40)

/-- `displacements_per_source_neutron_with_recombination =
displacements_per_source_neutron*0.8`. -/
def displacements_per_source_neutron_with_recombination (damage_energy : ℚ) : ℚ :=
  displacements_per_source_neutron damage_energy * 0.8

/-- `fusion_power = 3e9` (watts). -/
def fusion_power : ℚ := 3e9

/-- `energy_per_fusion_reaction = 17.6e6` (eV). -/
def energy_per_fusion_reaction : ℚ := 17.6e6

/-- `eV_to_Joules = 1.60218e-19`. -/
def eV_to_Joules : ℚ := 1.60218e-19

/-- `number_of_neutrons_per_second = fusion_power /
(energy_per_fusion_reaction * eV_to_Joules)`. -/
def number_of_neutrons_per_second : ℚ :=
  fusion_power / (energy_per_fusion_reaction * eV_to_Joules)

/-- `number_of_neutrons_per_year = number_of_neutrons_per_second * 60 * 60
* 24 * 365.25`. -/
def number_of_neutrons_per_year : ℚ :=
  number_of_neutrons_per_second * 60 * 60 * 24 * 365.25

/-- `displacements_for_all_atoms = number_of_neutrons_per_year *
displacements_per_source_neutron_with_recombination`. -/
def displacements_for_all_atoms (damage_energy : ℚ) : ℚ :=
  number_of_neutrons_per_year *
    displacements_per_source_neutron_with_recombination damage_energy

/-- `iron_atomic_mass_in_g = 55.845*1.66054E-24`. -/
def iron_atomic_mass_in_g : ℚ := 55.845 * 1.66054e-24

/-- `number_of_iron_atoms = volume_of_firstwall_cell *
density_of_iron_in_g_per_cm3 / (iron_atomic_mass_in_g)`. -/
def number_of_iron_atoms (volume_of_firstwall_cell : ℚ) : ℚ :=
  volume_of_firstwall_cell * density_of_iron_in_g_per_cm3 / iron_atomic_mass_in_g

/-- `DPA = displacements_for_all_atoms / number_of_iron_atoms`: the value
the notebook prints. -/
def DPA (damage_energy volume_of_firstwall_cell : ℚ) : ℚ :=
  displacements_for_all_atoms damage_energy /
    number_of_iron_atoms volume_of_firstwall_cell

/-- The closed-form composition stated by claim C8, written exactly as the
claim writes it (this definition follows the claim's words, to be compared
with `DPA`, which follows the code). -/
def DPA_claim_formula (damage_energy volume_of_firstwall_cell : ℚ) : ℚ :=
  damage_energy / (2 * 40) * 0.8 *
      (3e9 / (17.6e6 * 1.60218e-19) * 60 * 60 * 24 * 365.25) /
    (volume_of_firstwall_cell * density_of_iron_in_g_per_cm3 /
      (55.845 * 1.66054e-24))

/-! ## Shallow model: TBR sign conventions of
`parameter_study_optimisation.ipynb` (claim C10) -/

/-- `'tbr': -objective([...])` — the stored true TBR value is the negation
of the minimised objective at the sampled parameters. -/
def stored_tbr (objective : List ℚ → ℚ) (x : List ℚ) : ℚ :=
  -objective x

/-- `fx = -data['tbr']` — the plotting cell negates the loaded true TBR
values. -/
def fx_of_true_values (tbr_list : List ℚ) : List ℚ :=
  tbr_list.map (fun t => -t)

/-- `y = [-i for i in fx]` — the "True value" trace plots the negation of
`fx`. -/
def plotted_true_values (fx : List ℚ) : List ℚ :=
  fx.map (fun i => -i)

/-- `print('Maximum TBR = ', -res.fun)` — the printed maximum TBR is the
negation of the minimised objective value. -/
def printed_maximum_tbr (res_fun : ℚ) : ℚ :=
  -res_fun

/-! ## Shallow model: file writes (claims C9, C6, C7)

A file store is an association list from path to content; `writeFile` is
the semantics of opening a path in mode `"w"` (replace an existing entry,
otherwise append). -/

/-- Write `content` at `path`, replacing an existing entry (Python's
`open(path, mode="w")` semantics). -/
def writeFile {α : Type} : List (String × α) → String → α → List (String × α)
  | [], path, content => [(path, content)]
  | (k, v) :: rest, path, content =>
      if k == path then (path, content) :: rest
      else (k, v) :: writeFile rest path content

/-- Look up the content stored at `path`. -/
def lookupFile {α : Type} : List (String × α) → String → Option α
  | [], _ => none
  | (k, v) :: rest, path => if k == path then some v else lookupFile rest path

/-! ## Shallow model: `output_result` of the sampling notebook (claim C9) -/

/-- JSON values, with numbers kept as their source text. -/
inductive Json where
  | str (s : String)
  | num (lit : String)
  | boolJ (b : Bool)
  | arr (es : List Json)
  | obj (kvs : List (String × Json))

/-- A plain serialisation of a JSON value (the observable content that
`json.dump(result, f, indent=4)` writes, up to whitespace). -/
def dumpJson : Nat → Json → String
  | 0, _ => ""
  | _ + 1, .str s => "\"" ++ s ++ "\""
  | _ + 1, .num lit => lit
  | _ + 1, .boolJ b => if b then "true" else "false"
  | n + 1, .arr es =>
      "[" ++ String.intercalate ", " (es.map (fun e => dumpJson n e)) ++ "]"
  | n + 1, .obj kvs =>
      "\x7b" ++
        String.intercalate ", "
          (kvs.map (fun kv => "\"" ++ kv.1 ++ "\": " ++ dumpJson n kv.2)) ++
        "\x7d"

/-- `Path(filename).parent`: the path with its last `/`-separated
component removed (computed over the character list so that it evaluates
by kernel reduction). -/
def parentDir (p : String) : String :=
  String.mk (((p.data.reverse.dropWhile (fun c => c != '/')).drop 1).reverse)

/-- The state touched by `output_result`: the set of directories and the
files with their contents. -/
structure FileSystem where
  dirs : List String
  files : List (String × String)

/-- `output_result(result)` from the sampling notebook:
`filename = "outputs/" + str(uuid.uuid4()) + ".json"`, then
`Path(filename).parent.mkdir(parents=True, exist_ok=True)`, then
`json.dump(result, f)` into `filename` opened in mode `"w"`.  The
generated uuid string is passed in explicitly (`uuid.uuid4()` is the one
nondeterministic input). -/
def output_result (uuid4 : String) (result : Json) (fs : FileSystem) : FileSystem :=
  let filename := "outputs/" ++ uuid4 ++ ".json"
  let dirs1 :=
    if fs.dirs.contains (parentDir filename) then fs.dirs
    else parentDir filename :: fs.dirs
  { dirs := dirs1, files := writeFile fs.files filename (dumpJson 1000 result) }

/-! ## Shallow model: the depletion notebook's openmc.deplete usage
(claim C6) -/

/-- `chain_filename` as assigned in the depletion notebook. -/
def chain_filename : String :=
  "/tasks/task_14_activation_transmutation_depletion/chain-nndc-b7.1.xml"

/-- The slice of `openmc.deplete.Operator` relevant to claim C6: the
operator is bound to a decay/transmutation chain XML file.  The notebook
constructs the operator twice (once with keyword arguments, once as
`Operator(model, chain_filename)`); both bind the same chain file. -/
structure DepleteOperator where
  chain_file : String

/-- `operator = openmc.deplete.Operator(model, chain_filename)`. -/
def depletion_operator : DepleteOperator :=
  { chain_file := chain_filename }

/-- `time_steps = [365*24*60*60] * 5 + [365*24*60*60] * 5` (seconds). -/
def time_steps : List ℕ :=
  List.replicate 5 (365 * 24 * 60 * 60) ++ List.replicate 5 (365 * 24 * 60 * 60)

/-- `source_rates = [1e9]*5 + [0] * 5` (neutrons per second). -/
def source_rates : List ℚ :=
  List.replicate 5 1e9 ++ List.replicate 5 0

/-- `openmc.deplete.PredictorIntegrator(operator=operator,
timesteps=time_steps, source_rates=source_rates)`. -/
structure PredictorIntegrator where
  op : DepleteOperator
  timesteps : List ℕ
  src_rates : List ℚ

/-- The integrator constructed by the depletion notebook. -/
def depletion_integrator : PredictorIntegrator :=
  { op := depletion_operator, timesteps := time_steps, src_rates := source_rates }

/-- The contents of a depletion results file: which chain and schedule
produced it. -/
structure DepletionResults where
  chain_file : String
  timesteps : List ℕ
  src_rates : List ℚ

/-- Modelled from the spec: "run an integrator that writes an HDF5 results
file" — `integrator.integrate()` writes `depletion_results.h5` for the
integrator's operator chain and time-step/source-rate schedule.  The body
of `openmc.deplete` is external library code, so only this interface
effect is modelled. -/
def integrate (itg : PredictorIntegrator)
    (files : List (String × DepletionResults)) : List (String × DepletionResults) :=
  writeFile files "depletion_results.h5"
    { chain_file := itg.op.chain_file, timesteps := itg.timesteps,
      src_rates := itg.src_rates }

/-- `openmc.deplete.ResultsList.from_hdf5(path)`: read a results file
back. -/
def resultsList_from_hdf5 (files : List (String × DepletionResults))
    (path : String) : Option DepletionResults :=
  lookupFile files path

/-- The path the notebook reads back:
`openmc.deplete.ResultsList.from_hdf5("depletion_results.h5")`. -/
def depletion_results_read_path : String := "depletion_results.h5"

/-! ## Shallow model: the paramak CAD notebook (claim C7) -/

/-- Edge interpolation of a paramak shape: straight or spline. -/
inductive PEdge where
  | straight
  | spline

/-- The operation turning the 2D point loop into a 3D volume. -/
inductive POp where
  | rotate (rotation_angle : ℤ)
  | extrude (distance : ℤ)

/-- A paramak shape: a 2D point list, the edge type, the operation, and
optionally a `cut` shape (the `cut=` keyword argument of the
constructors). -/
inductive PShape where
  | shape (points : List (ℤ × ℤ)) (edge : PEdge) (op : POp)
  | shapeWithCut (points : List (ℤ × ℤ)) (edge : PEdge) (op : POp) (cut : PShape)

/-- The point list of a shape. -/
def PShape.points : PShape → List (ℤ × ℤ)
  | .shape pts _ _ => pts
  | .shapeWithCut pts _ _ _ => pts

/-- The operation of a shape. -/
def PShape.op : PShape → POp
  | .shape _ _ o => o
  | .shapeWithCut _ _ o _ => o

/-- `paramak.RotateStraightShape(points=[(50,50),(50,100),(100,100),(100,50)],
rotation_angle=180)`. -/
def rotate_straight_shape : PShape :=
  .shape [(50, 50), (50, 100), (100, 100), (100, 50)] .straight (.rotate 180)

/-- `paramak.RotateSplineShape(...)`, same points, rotation 180. -/
def rotate_spline_shape : PShape :=
  .shape [(50, 50), (50, 100), (100, 100), (100, 50)] .spline (.rotate 180)

/-- `paramak.ExtrudeStraightShape(..., distance=20)`. -/
def extrude_straight_shape : PShape :=
  .shape [(50, 50), (50, 100), (100, 100), (100, 50)] .straight (.extrude 20)

/-- `paramak.ExtrudeSplineShape(..., distance=20)`. -/
def extrude_spline_shape : PShape :=
  .shape [(50, 50), (50, 100), (100, 100), (100, 50)] .spline (.extrude 20)

/-- `small_Shape = paramak.ExtrudeStraightShape(points=[(60,60),(60,90),
(90,90),(90,60)], distance=20)`. -/
def small_Shape : PShape :=
  .shape [(60, 60), (60, 90), (90, 90), (90, 60)] .straight (.extrude 20)

/-- The final `my_shape`: the large extruded square with
`cut=small_Shape`. -/
def my_shape_with_cut : PShape :=
  .shapeWithCut [(50, 50), (50, 100), (100, 100), (100, 50)] .straight
    (.extrude 20) small_Shape

/-- Signed area test: negative (or zero) when `r` is on the clockwise side
of the directed edge from `p` to `q`. -/
def side (p q r : ℤ × ℤ) : ℤ :=
  (q.1 - p.1) * (r.2 - p.2) - (q.2 - p.2) * (r.1 - p.1)

/-- The directed edges of the closed loop through the points. -/
def polyEdges (pts : List (ℤ × ℤ)) : List ((ℤ × ℤ) × (ℤ × ℤ)) :=
  pts.zip (pts.rotate 1)

/-- Modelled from the spec: paramak builds the solid bounded by the edges
connecting the 2D points.  For the convex, clockwise point loops used in
the notebook this is the set of points on the clockwise side of every
edge. -/
def polyContains (pts : List (ℤ × ℤ)) (r : ℤ × ℤ) : Bool :=
  (polyEdges pts).all (fun e => decide (side e.1 e.2 r ≤ 0))

/-- Modelled from the spec: the cross-section region of a shape; "boolean
ops (cut/union)" — a `cut` removes the cut shape's region. -/
def PShape.region : PShape → ℤ × ℤ → Bool
  | .shape pts _ _, r => polyContains pts r
  | .shapeWithCut pts _ _ c, r => polyContains pts r && !(c.region r)

/-- The files produced by the CAD notebook's exports. -/
inductive CADFile where
  | stepFile (s : PShape)
  | stlFile (s : PShape)
  | h5mFile (files_with_tags : List (String × String))

/-- `my_shape.export_stp('example_shape.stp')`. -/
def export_stp (s : PShape) (filename : String)
    (files : List (String × CADFile)) : List (String × CADFile) :=
  writeFile files filename (.stepFile s)

/-- `my_shape.export_stl('example_shape.stl')`. -/
def export_stl (s : PShape) (filename : String)
    (files : List (String × CADFile)) : List (String × CADFile) :=
  writeFile files filename (.stlFile s)

/-- `stl_to_h5m(files_with_tags=[('example_shape.stl', 'mat1')],
h5m_filename='dagmc.h5m')`: converts the tagged STL files into a DAGMC
h5m mesh file. -/
def stl_to_h5m (files_with_tags : List (String × String)) (h5m_filename : String)
    (files : List (String × CADFile)) : List (String × CADFile) :=
  writeFile files h5m_filename (.h5mFile files_with_tags)

/-- The export cells of the CAD notebook, in order: STEP, STL, then the
DAGMC h5m conversion. -/
def cad_export_cells (files : List (String × CADFile)) : List (String × CADFile) :=
  stl_to_h5m [("example_shape.stl", "mat1")] "dagmc.h5m"
    (export_stl my_shape_with_cut "example_shape.stl"
      (export_stp my_shape_with_cut "example_shape.stp" files))

/-! ## Helper lemmas about the file-store -/

theorem lookupFile_writeFile_self {α : Type} (l : List (String × α)) (path : String) (c : α) :
    lookupFile (writeFile l path c) path = some c := by
  induction l with
  | nil => simp [writeFile, lookupFile]
  | cons kv rest ih =>
      obtain ⟨k, v⟩ := kv
      by_cases h : k = path
      · simp [writeFile, lookupFile, h]
      · simp [writeFile, lookupFile, h, ih]

theorem lookupFile_writeFile_ne {α : Type} (l : List (String × α)) (k path : String)
    (c : α) (hne : k ≠ path) :
    lookupFile (writeFile l path c) k = lookupFile l k := by
  induction l with
  | nil => simp [writeFile, lookupFile, Ne.symm hne]
  | cons kv rest ih =>
      obtain ⟨k', v⟩ := kv
      by_cases h : k' = path
      · subst h
        simp [writeFile, lookupFile, Ne.symm hne]
      · simp [writeFile, lookupFile, h, ih]

theorem lookupFile_isSome_of_mem {α : Type} (l : List (String × α)) (f : String)
    (c : α) (h : (f, c) ∈ l) : (lookupFile l f).isSome := by
  induction l with
  | nil => simp at h
  | cons kv rest ih =>
      obtain ⟨k, v⟩ := kv
      rcases List.mem_cons.mp h with h1 | h2
      · cases h1
        simp [lookupFile]
      · by_cases hk : k = f
        · simp [lookupFile, hk]
        · simpa [lookupFile, hk] using ih h2

/-! ## Claim theorems -/

/-- C1 (counterexample): the claim "no notebook computes a derived physics
quantity by its own arithmetic formula" is false on the repository: the
DPA notebook applies its own arithmetic (`/(2*40)`, `*0.8`, the full-power
year scaling and the division by the atom count) to the damage-energy
tally means it read back from the statepoint. -/
theorem c1_counterexample_dpa_arithmetic :
    claimC1checker repositoryNotebooks = false ∧
    hasArithOnSimOutput find_dpa = true :=
  ⟨rfl, rfl⟩

/-- C1 (amended): the notebooks never implement a transport kernel,
geometry engine or depletion integrator — no notebook contains a `while`
loop or an assignment updating a variable as an arithmetic function of
itself — and the notebooks that do apply their own arithmetic to
simulation output are exactly the DPA notebook, the 3D mesh-tally notebook
(eV-to-joules scaling of the heating tally) and the optimisation notebook
(negations of the minimised objective). -/
theorem c1_amended_no_kernels_three_arith_notebooks :
    noHandWrittenKernels repositoryNotebooks = true ∧
    arithNotebookNames repositoryNotebooks =
      [find_dpa.name, mesh_tallies_3d.name, parameter_study_optimisation.name] :=
  ⟨rfl, rfl⟩

/-- C2 (counterexample): the claim "every attribute populated on a
constructed object is assigned a literal value" is false: the depletion
notebook assigns `my_material.volume = (4/3) * math.pi *
iron_sphere_radius**3` (and likewise `shield_cell.volume`), an arithmetic
expression, not a literal. -/
theorem c2_counterexample_volume_attribute :
    claimC2checker repositoryNotebooks = false ∧
    stmtsAllSetAttrRhs (fun e => isLiteralExpr astFuel e) astFuel
      transmutation_isotope_build_up.stmts = false :=
  ⟨rfl, rfl⟩

/-- C2 (amended): every attribute populated on a constructed object is
assigned a literal, a previously bound name, a collection of literals and
names, the result of a library call, or static arithmetic over literals,
names and attribute reads; no attribute is assigned a sampled random
number or a generated array.  Computed expressions do occur, but as
call arguments: `openmc.EnergyFilter(np.linspace(0,15e6,200))` in the
spectra notebook and `find_tbr_hcpb(np.random.uniform(...), ...)` in the
sampling notebook. -/
theorem c2_amended_attribute_classes :
    repositoryNotebooks.all (fun nb =>
        stmtsAllSetAttrRhs (fun e => allowedAttrRhs astFuel e) astFuel nb.stmts) = true ∧
    repositoryNotebooks.all (fun nb =>
        stmtsAllSetAttrRhs
          (fun e => !exprContainsCall ["np.random.uniform", "np.linspace"] astFuel e)
          astFuel nb.stmts) = true ∧
    stmtsContainCall ["np.linspace"] astFuel neutron_spectra_histogram.stmts = true ∧
    stmtsContainCall ["np.random.uniform"] astFuel parameter_space_sampling.stmts = true :=
  ⟨rfl, rfl, rfl, rfl⟩

/-- C4: no notebook contains a `try`/`except` block, an `if` statement or
a `while` loop, so the notebooks have no retry, recovery or validation
logic of their own around external calls or file accesses — failures
propagate as the external libraries' exceptions. -/
theorem c4_no_retry_recovery_validation :
    claimC4checker repositoryNotebooks = true :=
  rfl

/-- C5 (counterexample): not every transport notebook extracts tallies as
tabular (pandas dataframe) data: the CAD heating notebook runs a transport
simulation and reads the statepoint back, but extracts the tally with
`get_values().sum()` (a summed array), never building a dataframe; the
spectra and mesh notebooks likewise pass tally objects to plotting helpers
or read mean arrays directly. -/
theorem c5_counterexample_cad_notebook :
    claimC5checker repositoryNotebooks = false ∧
    runsTransport cad_cell_tally_heat = true ∧
    readsStatePoint cad_cell_tally_heat = true ∧
    extractsPandasDataframe cad_cell_tally_heat = false :=
  ⟨rfl, rfl, rfl, rfl⟩

/-- C5 (amended): the transport notebooks are exactly the seven listed;
each of them constructs Material/Geometry/Settings/Tally/Source objects,
assigns the statepoint filename returned by `run()`, reads the results
back through `openmc.StatePoint` and retrieves tallies via `get_tally`;
the extraction into pandas dataframes happens exactly in the TBR and DPA
cell-tally notebooks. -/
theorem c5_amended_transport_sequence :
    (transportNotebooks repositoryNotebooks).map Notebook.name =
      [tbr_simulation.name, neutron_spectra_histogram.name, find_dpa.name,
       mesh_tallies_2d.name, photon_spectra_histogram.name, mesh_tallies_3d.name,
       cad_cell_tally_heat.name] ∧
    (transportNotebooks repositoryNotebooks).all (fun nb =>
        constructsModelObjects nb && stmtsAssignRun astFuel nb.stmts &&
          readsStatePoint nb && getsTallyFromStatePoint nb) = true ∧
    ((transportNotebooks repositoryNotebooks).filter extractsPandasDataframe).map
        Notebook.name =
      [tbr_simulation.name, find_dpa.name] :=
  ⟨rfl, rfl, rfl⟩

/-- C6: the depletion notebook's `openmc.deplete.Operator` is bound to the
decay/transmutation chain XML file, the `PredictorIntegrator` carries that
operator together with the ten-entry time-step and source-rate schedule,
running the integrator writes the HDF5 results file
`depletion_results.h5`, and the notebook reads results back from exactly
that file. -/
theorem c6_depletion_operator_schedule_results
    (files : List (String × DepletionResults)) :
    depletion_operator.chain_file = chain_filename ∧
    List.isSuffixOf ".xml".data chain_filename.data = true ∧
    depletion_integrator.op = depletion_operator ∧
    depletion_integrator.timesteps.length = 10 ∧
    depletion_integrator.src_rates.length = 10 ∧
    resultsList_from_hdf5 (integrate depletion_integrator files)
        depletion_results_read_path =
      some { chain_file := chain_filename, timesteps := time_steps,
             src_rates := source_rates } := by
  refine ⟨rfl, by decide, rfl, by decide, by decide, ?_⟩
  simpa [integrate, resultsList_from_hdf5, depletion_results_read_path] using
    lookupFile_writeFile_self files "depletion_results.h5"
      { chain_file := depletion_integrator.op.chain_file,
        timesteps := depletion_integrator.timesteps,
        src_rates := depletion_integrator.src_rates }

/-- C7: every paramak shape in the CAD notebook is built from a 2D
four-point list with a rotate or extrude operation; the final shape cuts
`small_Shape` out of the large extruded square — the point `(75,75)` lies
in both plain shapes but not in the cut result, while `(55,55)` survives
the cut — and the notebook exports the cut shape to the STEP and STL files
and converts the tagged STL into the DAGMC `dagmc.h5m` mesh file. -/
theorem c7_cad_shapes_cut_and_exports (files : List (String × CADFile)) :
    (rotate_straight_shape.points.length = 4 ∧ rotate_spline_shape.points.length = 4 ∧
     extrude_straight_shape.points.length = 4 ∧ extrude_spline_shape.points.length = 4 ∧
     small_Shape.points.length = 4 ∧ my_shape_with_cut.points.length = 4) ∧
    (rotate_straight_shape.op = POp.rotate 180 ∧ rotate_spline_shape.op = POp.rotate 180 ∧
     extrude_straight_shape.op = POp.extrude 20 ∧ extrude_spline_shape.op = POp.extrude 20 ∧
     small_Shape.op = POp.extrude 20 ∧ my_shape_with_cut.op = POp.extrude 20) ∧
    (PShape.region extrude_straight_shape (75, 75) = true ∧
     PShape.region small_Shape (75, 75) = true ∧
     PShape.region my_shape_with_cut (75, 75) = false ∧
     PShape.region my_shape_with_cut (55, 55) = true) ∧
    (lookupFile (cad_export_cells files) "example_shape.stp" =
        some (CADFile.stepFile my_shape_with_cut) ∧
     lookupFile (cad_export_cells files) "example_shape.stl" =
        some (CADFile.stlFile my_shape_with_cut) ∧
     lookupFile (cad_export_cells files) "dagmc.h5m" =
        some (CADFile.h5mFile [("example_shape.stl", "mat1")])) := by
  have h1 : ("example_shape.stp" : String) ≠ "dagmc.h5m" := by decide
  have h2 : ("example_shape.stp" : String) ≠ "example_shape.stl" := by decide
  have h3 : ("example_shape.stl" : String) ≠ "dagmc.h5m" := by decide
  refine ⟨⟨rfl, rfl, rfl, rfl, rfl, rfl⟩, ⟨rfl, rfl, rfl, rfl, rfl, rfl⟩,
    ⟨by decide, by decide, by decide, by decide⟩, ⟨?_, ?_, ?_⟩⟩
  · rw [cad_export_cells, stl_to_h5m, lookupFile_writeFile_ne _ _ _ _ h1,
      export_stl, lookupFile_writeFile_ne _ _ _ _ h2, export_stp,
      lookupFile_writeFile_self]
  · rw [cad_export_cells, stl_to_h5m, lookupFile_writeFile_ne _ _ _ _ h3,
      export_stl, lookupFile_writeFile_self]
  · rw [cad_export_cells, stl_to_h5m, lookupFile_writeFile_self]

/-- C8: the DPA value printed by the notebook equals the claim's
closed-form composition: the summed per-nuclide damage-energy means over
`2*40`, times the `0.8` recombination factor, times the number of source
neutrons per full-power year, divided by the number of iron atoms in the
cell. -/
theorem c8_dpa_equals_claim_formula (per_nuclide_means : List ℚ)
    (volume_of_firstwall_cell : ℚ) :
    DPA (damage_energy_in_ev per_nuclide_means) volume_of_firstwall_cell =
      DPA_claim_formula (damage_energy_in_ev per_nuclide_means)
        volume_of_firstwall_cell := by
  unfold DPA DPA_claim_formula displacements_for_all_atoms
    displacements_per_source_neutron_with_recombination
    displacements_per_source_neutron number_of_neutrons_per_year
    number_of_neutrons_per_second fusion_power energy_per_fusion_reaction
    eV_to_Joules number_of_iron_atoms iron_atomic_mass_in_g
    density_of_iron_in_g_per_cm3
  ring

/-- C9: `output_result` writes the JSON serialisation of its argument to
the fresh file `outputs/<uuid4>.json`, creates the `outputs` directory if
missing, and leaves every previously written file unchanged.  The two
hypotheses say that the generated uuid names a file not yet present and
contains no path separator. -/
theorem c9_output_result_spec (fs : FileSystem) (u : String) (result : Json)
    (hfresh : lookupFile fs.files ("outputs/" ++ u ++ ".json") = none)
    (hdir : parentDir ("outputs/" ++ u ++ ".json") = "outputs") :
    lookupFile (output_result u result fs).files ("outputs/" ++ u ++ ".json") =
        some (dumpJson 1000 result) ∧
      "outputs" ∈ (output_result u result fs).dirs ∧
      ∀ f c, (f, c) ∈ fs.files →
        lookupFile (output_result u result fs).files f = lookupFile fs.files f := by
  refine ⟨?_, ?_, ?_⟩
  · simpa [output_result] using
      lookupFile_writeFile_self fs.files ("outputs/" ++ u ++ ".json")
        (dumpJson 1000 result)
  · by_cases hc : "outputs" ∈ fs.dirs
    · simp [output_result, hdir, hc]
    · simp [output_result, hdir, hc]
  · intro f c hmem
    have hne : f ≠ "outputs/" ++ u ++ ".json" := by
      intro he
      have hs := lookupFile_isSome_of_mem fs.files f c hmem
      rw [he, hfresh] at hs
      simp at hs
    simpa [output_result] using
      lookupFile_writeFile_ne fs.files f ("outputs/" ++ u ++ ".json")
        (dumpJson 1000 result) hne

/-- Witness for C9 at a concrete state: one previously written result
file, uuid `"w1"`; the hypotheses hold, the new file gets the serialised
result, the `outputs` directory exists afterwards, and the old file is
untouched. -/
theorem c9_output_result_spec_witness :
    lookupFile [("outputs/previous.json", "old")] ("outputs/" ++ "w1" ++ ".json") = none ∧
    parentDir ("outputs/" ++ "w1" ++ ".json") = "outputs" ∧
    lookupFile (output_result "w1" (Json.obj [("tbr", Json.num "1.1")])
        ⟨[], [("outputs/previous.json", "old")]⟩).files ("outputs/" ++ "w1" ++ ".json") =
      some (dumpJson 1000 (Json.obj [("tbr", Json.num "1.1")])) ∧
    "outputs" ∈ (output_result "w1" (Json.obj [("tbr", Json.num "1.1")])
        ⟨[], [("outputs/previous.json", "old")]⟩).dirs ∧
    lookupFile (output_result "w1" (Json.obj [("tbr", Json.num "1.1")])
        ⟨[], [("outputs/previous.json", "old")]⟩).files "outputs/previous.json" =
      some "old" := by
  have h := c9_output_result_spec ⟨[], [("outputs/previous.json", "old")]⟩ "w1"
    (Json.obj [("tbr", Json.num "1.1")]) (by rfl) (by rfl)
  exact ⟨by rfl, by rfl, h.1, h.2.1,
    (h.2.2 "outputs/previous.json" "old" (by simp)).trans (by rfl)⟩

/-- C10: the negation of TBR is applied an even number of times end to
end: the stored true value is `tbr = -objective(x)`, the 1D plot computes
`fx = -tbr` and plots `-fx`, so the plotted "True value" curve equals the
stored tbr values exactly; and the printed "Maximum TBR" is `-res.fun`,
the negation of the minimised objective value. -/
theorem c10_tbr_sign_conventions (objective : List ℚ → ℚ) (x : List ℚ)
    (tbrs : List ℚ) (res_fun : ℚ) :
    stored_tbr objective x = -objective x ∧
    plotted_true_values (fx_of_true_values tbrs) = tbrs ∧
    printed_maximum_tbr res_fun = -res_fun := by
  refine ⟨rfl, ?_, rfl⟩
  simp [plotted_true_values, fx_of_true_values, List.map_map, Function.comp]
